import Mathlib

/-!
The page agent of the accessibility extension (`content.js`).

A shallow embedding of the content script: the module-level `settings`
variable, the synchronized settings store, the parts of the document the
script reads and writes, the speech-synthesis and speech-recognition engines,
and the on-page notification are the fields of one `State`; every function of
the script is a function `State → State`.

Modelling conventions.

* A JavaScript string whose length or contents matter (page text, selections,
  field values, transcripts, notification messages) is the list of its UTF-16
  code units, so that `length` and `substring` count what JavaScript counts.
  Tokens that are only compared (tag names, class names, theme names, action
  names) are Lean strings.
* `settings.fontSize` is a JavaScript number with an integer value: sums and
  differences are rounded to the nearest double, which changes nothing below
  `2^53` in magnitude. `speechRate` is the exact rational value of a finite
  JavaScript number.
* The setters of the platform objects the script assigns to are part of the
  model: the `value` and selection setters of a form field, and the `rate`
  setter of an utterance. Class and id selectors follow the mode of the
  document.
* A `try`/`catch` is modelled by the branch that the thrown exception takes.
  The exceptions modelled are the ones the script can meet on an HTML page:
  a missing speech-synthesis engine, a speech rate that no 32-bit float is
  near, the misspelt `document.exceecommand`, a selection setter on a field
  that has no selection, a `null` active element and `recognition.start()`
  on a session that is already running.
* Timers (the auto-dismissal of a notification) and the engine events
  `onstart`/`onend`/`onerror` of an utterance are asynchronous and are not
  part of a synchronous call.
-/

namespace ContentScript

/-! ## Strings -/

/-- A JavaScript string, as its sequence of UTF-16 code units. -/
abbrev JSString := List Nat

/-- UTF-16 code units of one Unicode scalar value. -/
def utf16Char (c : Char) : List Nat :=
  if c.toNat < 65536 then [c.toNat]
  else [55296 + (c.toNat - 65536) / 1024, 56320 + (c.toNat - 65536) % 1024]

/-- UTF-16 code units of a string literal of the script. -/
def utf16 (s : String) : JSString :=
  s.toList.foldr (fun c acc => utf16Char c ++ acc) []

/-- The code units matched by the regular expression class `\s`, which are
also the ones removed by `String.prototype.trim` (WhiteSpace and
LineTerminator of ECMAScript). -/
def isWhiteSpace (c : Nat) : Bool :=
  c == 9 || c == 10 || c == 11 || c == 12 || c == 13 || c == 32 || c == 160 ||
  c == 5760 || (8192 ≤ c && c ≤ 8202) || c == 8232 || c == 8233 || c == 8239 ||
  c == 8287 || c == 12288 || c == 65279

/-- The code unit matched by `\n`. -/
def isNewline (c : Nat) : Bool := c == 10

/-- `str.replace(/p+/g, ' ')`: every maximal run of code units satisfying `p`
becomes one space. The flag tells whether the previous code unit belonged to
a run. -/
def replaceRunsAux (p : Nat → Bool) : Bool → JSString → JSString
  | _, [] => []
  | inRun, c :: cs =>
    if p c then
      if inRun then replaceRunsAux p true cs else 32 :: replaceRunsAux p true cs
    else c :: replaceRunsAux p false cs

/-- `str.replace(/p+/g, ' ')`. -/
def replaceRuns (p : Nat → Bool) (str : JSString) : JSString :=
  replaceRunsAux p false str

/-- `str.trim()`. -/
def trim (str : JSString) : JSString :=
  ((str.dropWhile isWhiteSpace).reverse.dropWhile isWhiteSpace).reverse

/-- `str.substring(0, n)`. -/
def substring0 (str : JSString) (n : Nat) : JSString := str.take n

/-! ## Settings -/

/-- The `settings` record of the script. -/
structure Settings where
  ttsEnabled : Bool
  voiceEnabled : Bool
  speechRate : Rat
  fontSize : Int
  theme : String
  focusMode : Bool
  keyboardNav : Bool
  deriving DecidableEq, Repr

/-- The object literal of lines 4-12 and 376-384. -/
def defaultSettings : Settings :=
  { ttsEnabled := false, voiceEnabled := false, speechRate := 1, fontSize := 100,
    theme := "normal", focusMode := false, keyboardNav := true }

/-- A record that holds any subset of the seven settings keys: the content of
`chrome.storage.sync` restricted to `Object.keys(settings)`, or the `settings`
payload of an `applySettings` message. -/
structure StoredSettings where
  ttsEnabled : Option Bool
  voiceEnabled : Option Bool
  speechRate : Option Rat
  fontSize : Option Int
  theme : Option String
  focusMode : Option Bool
  keyboardNav : Option Bool
  deriving DecidableEq, Repr

/-- The store after `chrome.storage.sync.clear()`. -/
def emptyStore : StoredSettings :=
  { ttsEnabled := none, voiceEnabled := none, speechRate := none, fontSize := none,
    theme := none, focusMode := none, keyboardNav := none }

/-- The object spread `{ ...settings, ...result }`: every key present in
`result` overrides the key of `settings`. -/
def spread (settings : Settings) (result : StoredSettings) : Settings :=
  { ttsEnabled := result.ttsEnabled.getD settings.ttsEnabled
    voiceEnabled := result.voiceEnabled.getD settings.voiceEnabled
    speechRate := result.speechRate.getD settings.speechRate
    fontSize := result.fontSize.getD settings.fontSize
    theme := result.theme.getD settings.theme
    focusMode := result.focusMode.getD settings.focusMode
    keyboardNav := result.keyboardNav.getD settings.keyboardNav }

/-! ## The page -/

/-- The notification element `div#accessibility-notification`. -/
structure Notification where
  message : JSString
  type : String
  deriving DecidableEq, Repr

/-- What the `value` setter of an element does with the string it is given.
A `textarea` reads back the string with every CR LF pair and every other CR
turned into LF. An `input` of type `text`, `search`, `tel` or `password`
removes every LF and CR. Any other element applies the value sanitization of
its own kind (the identity for an element that is no form field, where
`value` is an ordinary property). -/
inductive ValueKind where
  | textarea
  | singleLine
  | other (sanitize : JSString → JSString)

/-- The value a single-line `input` keeps: LF and CR removed. -/
def stripLineBreaks (v : JSString) : JSString :=
  v.filter (fun c => !(c == 10 || c == 13))

/-- The value a `textarea` reads back: CR LF and CR become LF. The flag tells
whether the previous code unit was a CR. -/
def normalizeLineBreaksAux : Bool → JSString → JSString
  | _, [] => []
  | afterCR, c :: rest =>
    if c = 13 then 10 :: normalizeLineBreaksAux true rest
    else if c = 10 ∧ afterCR = true then normalizeLineBreaksAux false rest
    else c :: normalizeLineBreaksAux false rest

/-- The value a `textarea` reads back. -/
def normalizeLineBreaks (v : JSString) : JSString := normalizeLineBreaksAux false v

/-- The string the `value` getter returns after the setter was given `v`. -/
def ValueKind.sanitize : ValueKind → JSString → JSString
  | .textarea, v => normalizeLineBreaks v
  | .singleLine, v => stripLineBreaks v
  | .other sanitize, v => sanitize v

/-- An element of the page. `valueKind` is the behaviour of its `value`
setter. `innerText` is the text the renderer reports for
the element; it is a function of the notification currently attached to the
body, because `showNotification` appends its element to `document.body` and
the rendered text of the body (and of any element that contains it) then
includes it. `selectionStart`/`selectionEnd` are `none` (JavaScript `null`) on
an element to which the selection API does not apply. -/
structure Element where
  tagName : String
  id : String
  classList : List String
  attributes : List (String × String)
  isContentEditable : Bool
  valueKind : ValueKind
  value : JSString
  selectionStart : Option Nat
  selectionEnd : Option Nat
  textContent : JSString
  innerText : Option Notification → JSString

/-- The assignment `el.value = v`. -/
def Element.setValue (el : Element) (v : JSString) : Element :=
  { el with value := el.valueKind.sanitize v }

/-- The assignment `el.selectionStart = el.selectionEnd = position` on an
element with a selection: each setter clamps to the length of the value. -/
def Element.setSelection (el : Element) (position : Nat) : Element :=
  { el with
    selectionStart := some (min position el.value.length)
    selectionEnd := some (min position el.value.length) }

/-- The document: the inline font size of the root element, the body, the
descendants of the body in tree order, the index of `document.activeElement`
in `body :: elements` (an index out of range is `null`), the string of the
current selection, and the notification element if one is attached.
`quirksMode` tells whether the document is in quirks mode
(`document.compatMode` is `BackCompat`), in which class and id selectors
match without regard to ASCII case. The page is an HTML document, all of
whose elements are HTML elements; its `html` and `head` elements match none
of the selectors the script uses, and it has no element of its own with the
id `accessibility-notification`. -/
structure Document where
  quirksMode : Bool
  rootFontSize : JSString
  body : Element
  elements : List Element
  activeElement : Nat
  selection : JSString
  notification : Option Notification

/-- The elements `querySelector` and `querySelectorAll` go through, in tree
order. -/
def Document.all (d : Document) : List Element := d.body :: d.elements

/-- The element with index `i` in tree order. -/
def Document.element? (d : Document) (i : Nat) : Option Element := d.all.get? i

/-- Replaces the element with index `i` in tree order. -/
def Document.setElement (d : Document) (i : Nat) (el : Element) : Document :=
  match i with
  | 0 => { d with body := el }
  | j + 1 => { d with elements := d.elements.set j el }

/-- A `SpeechSynthesisUtterance`. -/
structure Utterance where
  text : JSString
  rate : Rat
  pitch : Nat
  volume : Nat
  deriving DecidableEq, Repr

/-- The speech engine `window.speechSynthesis`: its `speaking` flag, the
utterances handed to `speak` so far (oldest first) and the number of calls
of `cancel`. -/
structure SpeechSynthesis where
  speaking : Bool
  spoken : List Utterance
  cancelCalls : Nat
  deriving DecidableEq, Repr

/-- The `recognition` object: whether a session is running, the number of
sessions begun by `start`, and the element captured by the handlers that
`startVoiceInput` installed, if any. -/
structure Recognition where
  listening : Bool
  startCalls : Nat
  handlerTarget : Option Nat
  deriving DecidableEq, Repr

/-- The state of the page agent. `speechSynthesis` is `none` when the browser
has no speech-synthesis engine, `recognition` is `none` when line 20 found no
recognition constructor. `notifications` records every notification shown,
oldest first. -/
structure State where
  settings : Settings
  store : StoredSettings
  document : Document
  speechSynthesis : Option SpeechSynthesis
  recognition : Option Recognition
  notifications : List Notification

/-! ## Notifications -/

/-- `showNotification(message, type)`: removes the attached notification, if
any, and attaches a new one. -/
def showNotification (message : JSString) (type : String) (s : State) : State :=
  { s with
    document := { s.document with notification := some ⟨message, type⟩ }
    notifications := s.notifications ++ [⟨message, type⟩] }

/-! ## Font size -/

/-- `applyFontSize()`. The number is written with all its digits, as
JavaScript writes an integer of magnitude below `10^21`. -/
def applyFontSize (s : State) : State :=
  { s with document :=
      { s.document with rootFontSize := utf16 (toString s.settings.fontSize) ++ utf16 "%" } }

/-- The spacing of the doubles around the natural number `m`: the least power
of two `q` with `m / q < 2^53`, found by doubling from `q`. It is `1` below
`2^53`. -/
def doubleQuantumAux : Nat → Nat → Nat → Nat
  | 0, _, q => q
  | fuel + 1, m, q =>
    if m / q < 9007199254740992 then q else doubleQuantumAux fuel m (2 * q)

/-- The spacing of the doubles around `m`, for `m` below `2^1024`. -/
def doubleQuantum (m : Nat) : Nat := doubleQuantumAux 1024 m 1

/-- The double nearest to the integer `n`, ties going to the even
significand: the result of an addition or subtraction of JavaScript numbers
whose exact result is `n` (of magnitude below `2^1024`). -/
def roundDouble (n : Int) : Int :=
  let m := n.natAbs
  let q := doubleQuantum m
  let lo := m / q
  let r := m % q
  let significand :=
    if 2 * r < q then lo else if q < 2 * r then lo + 1 else if lo % 2 = 0 then lo else lo + 1
  n.sign * ((significand * q : Nat) : Int)

/-- `changeFontSize(change)`. The sum and the difference of lines 269 and 271
are computed in doubles. -/
def changeFontSize (change : String) (s : State) : State :=
  let s1 : State :=
    if change = "increase" then
      { s with
        settings := { s.settings with fontSize := min (roundDouble (s.settings.fontSize + 10)) 200 } }
    else if change = "decrease" then
      { s with
        settings := { s.settings with fontSize := max (roundDouble (s.settings.fontSize - 10)) 80 } }
    else if change = "reset" then
      { s with settings := { s.settings with fontSize := 100 } }
    else s
  let s2 : State := { s1 with store := { s1.store with fontSize := some s1.settings.fontSize } }
  let s3 := applyFontSize s2
  showNotification (utf16 "Font size: " ++ utf16 (toString s3.settings.fontSize) ++ utf16 "%")
    "info" s3

/-! ## Class lists, attributes and selectors -/

/-- `classList.remove(...tokens)`. -/
def classListRemove (tokens : List String) (classList : List String) : List String :=
  classList.filter (fun c => !tokens.contains c)

/-- `classList.add(token)`. -/
def classListAdd (token : String) (classList : List String) : List String :=
  if classList.contains token then classList else classList ++ [token]

/-- `el.hasAttribute(name)`. -/
def Element.hasAttribute (el : Element) (name : String) : Bool :=
  el.attributes.any (fun a => a.1 == name)

/-- `el.getAttribute(name)`. -/
def Element.getAttribute (el : Element) (name : String) : Option String :=
  (el.attributes.find? (fun a => a.1 == name)).map (fun a => a.2)

/-- `el.setAttribute(name, value)`. -/
def Element.setAttribute (el : Element) (name value : String) : Element :=
  if el.hasAttribute name then
    { el with attributes := el.attributes.map (fun a => if a.1 == name then (name, value) else a) }
  else { el with attributes := el.attributes ++ [(name, value)] }

/-- Whether a class name or id of an element is the one a class or id
selector names: the same string, or in a quirks-mode document the same string
up to the case of ASCII letters. -/
def sameName (quirksMode : Bool) (name selector : String) : Bool :=
  if quirksMode then name.toList.map Char.toLower == selector.toList.map Char.toLower
  else name == selector

/-- Whether the element matches the selector list
`main, article, .content, #content, [role="main"]` of line 135, in a document
of the given mode. -/
def matchesMainContent (quirksMode : Bool) (el : Element) : Bool :=
  el.tagName == "MAIN" || el.tagName == "ARTICLE" ||
  el.classList.any (fun c => sameName quirksMode c "content") ||
  sameName quirksMode el.id "content" || el.getAttribute "role" == some "main"

/-- Whether the element matches the selector list
`a, button, input, select, textarea, [onclick]` of line 326. -/
def matchesInteractive (el : Element) : Bool :=
  el.tagName == "A" || el.tagName == "BUTTON" || el.tagName == "INPUT" ||
  el.tagName == "SELECT" || el.tagName == "TEXTAREA" || el.hasAttribute "onclick"

/-- `document.querySelector(sel)`: the first element in tree order that
matches. -/
def Document.querySelector (d : Document) (sel : Element → Bool) : Option Element :=
  d.all.find? sel

/-- Applies `f` to every element matched by `sel`: the loop
`document.querySelectorAll(sel).forEach(f)`. -/
def Document.forEachMatch (d : Document) (sel : Element → Bool) (f : Element → Element) :
    Document :=
  { d with
    body := if sel d.body then f d.body else d.body
    elements := d.elements.map (fun el => if sel el then f el else el) }

/-! ## Theme, focus mode, keyboard navigation, ARIA labels -/

/-- The three theme classes removed on line 289. -/
def themeClasses : List String :=
  ["accessible-high-contrast", "accessible-dark", "accessible-yellow-black"]

/-- `applyTheme()`. -/
def applyTheme (s : State) : State :=
  let removed := classListRemove themeClasses s.document.body.classList
  let classList :=
    if s.settings.theme = "high-contrast" then classListAdd "accessible-high-contrast" removed
    else if s.settings.theme = "dark" then classListAdd "accessible-dark" removed
    else if s.settings.theme = "yellow-black" then classListAdd "accessible-yellow-black" removed
    else removed
  { s with document := { s.document with body := { s.document.body with classList := classList } } }

/-- `applyFocusMode()`. -/
def applyFocusMode (s : State) : State :=
  if s.settings.focusMode then
    showNotification (utf16 "Focus mode enabled") "success"
      { s with document := { s.document with body := { s.document.body with
          classList := classListAdd "accessible-focus-mode" s.document.body.classList } } }
  else
    { s with document := { s.document with body := { s.document.body with
        classList := classListRemove ["accessible-focus-mode"] s.document.body.classList } } }

/-- The body of the `forEach` of lines 329-333. -/
def addTabIndex (el : Element) : Element :=
  if !el.hasAttribute "tabindex" || el.getAttribute "tabindex" == some "-1" then
    el.setAttribute "tabindex" "0"
  else el

/-- `applyKeyboardNavigation()`. -/
def applyKeyboardNavigation (s : State) : State :=
  if s.settings.keyboardNav then
    let d := s.document.forEachMatch matchesInteractive addTabIndex
    { s with document := { d with body := { d.body with
        classList := classListAdd "accessible-keyboard-nav" d.body.classList } } }
  else s

/-- `addARIALabels()`. -/
def addARIALabels (s : State) : State :=
  let d1 := s.document.forEachMatch
    (fun el => el.tagName == "IMG" && !el.hasAttribute "alt")
    (fun img => img.setAttribute "alt" "Image")
  let d2 := d1.forEachMatch
    (fun el => el.tagName == "BUTTON" && !el.hasAttribute "aria-label")
    (fun btn => if (trim btn.textContent).isEmpty then btn.setAttribute "aria-label" "Button" else btn)
  let d3 := d2.forEachMatch
    (fun el => el.tagName == "A" && !el.hasAttribute "aria-label")
    (fun link => if (trim link.textContent).isEmpty then link.setAttribute "aria-label" "Link" else link)
  { s with document := d3 }

/-- `applyAllSettings()`. -/
def applyAllSettings (s : State) : State :=
  addARIALabels (applyKeyboardNavigation (applyFocusMode (applyFontSize (applyTheme s))))

/-- `resetAllSettings()`. -/
def resetAllSettings (s : State) : State :=
  showNotification (utf16 "All settings reset") "success"
    (applyAllSettings { s with settings := defaultSettings })

/-- The callback of `chrome.storage.sync.get(Object.keys(settings), ...)` of
lines 28-31, run on the content of the store. -/
def loadAndApply (s : State) : State :=
  applyAllSettings { s with settings := spread s.settings s.store }

/-! ## Text to speech -/

/-- `stopSpeech()`. Without an engine the property access throws and the
handler only logs to the console. -/
def stopSpeech (s : State) : State :=
  match s.speechSynthesis with
  | none => s
  | some engine =>
    if engine.speaking then
      showNotification (utf16 "Speech stopped") "info"
        { s with
          speechSynthesis := some { engine with speaking := false, cancelCalls := engine.cancelCalls + 1 } }
    else s

/-- The integer nearest to `n / d`, ties going to the even integer. -/
def roundHalfEvenDiv (n d : Nat) : Nat :=
  let lo := n / d
  let r := n % d
  if 2 * r < d then lo else if d < 2 * r then lo + 1 else if lo % 2 = 0 then lo else lo + 1

/-- For `n / d` in `[2^-4, 2^4)`, the `k` for which the 32-bit floats around
`n / d` are the multiples of `2^-k`. -/
def float32Shift (n d : Nat) : Nat :=
  if 8 * n < d then 27 else if 4 * n < d then 26 else if 2 * n < d then 25
  else if n < d then 24 else if n < 2 * d then 23 else if n < 4 * d then 22
  else if n < 8 * d then 21 else 20

/-- The least rate an utterance keeps: the 32-bit float nearest to `0.1`. -/
def minRate : Rat := mkRat 13421773 134217728

/-- What the setter of `SpeechSynthesisUtterance.rate` (a Web IDL `float`)
stores for a finite JavaScript number: the nearest 32-bit float, ties going
to the even significand, clamped to `[0.1, 10]` (both bounds as 32-bit
floats). It is `none` when the setter throws a `TypeError` because the
nearest float is not finite, that is when the magnitude of the number is at
least `2^128 - 2^103`. Rounding is monotone and both bounds are floats, so a
number up to the lower bound gives the lower bound and a number from `10` on
gives `10`; in between the 32-bit floats are the multiples of
`2^-(float32Shift ..)`. -/
def utteranceRate (rate : Rat) : Option Rat :=
  if 340282356779733661637539395458142568448 * rate.den ≤ rate.num.natAbs then none
  else if rate.num * 134217728 ≤ 13421773 * rate.den then some minRate
  else if 10 * (rate.den : Int) ≤ rate.num then some 10
  else
    let k := float32Shift rate.num.natAbs rate.den
    some (mkRat (roundHalfEvenDiv (rate.num.natAbs * 2 ^ k) rate.den) (2 ^ k))

/-- `speakText(text)`. Without an engine the construction of the utterance
throws, and with a rate no 32-bit float is near the assignment of line 174
throws; in both cases the handler shows a notification and `speak` is not
called. The engine reports `speaking` from the moment an utterance is handed
to `speak`. -/
def speakText (text : JSString) (s : State) : State :=
  let s1 := stopSpeech s
  if text.isEmpty then s1
  else
    match s1.speechSynthesis with
    | none => showNotification (utf16 "Text-to-speech not available") "error" s1
    | some engine =>
      match utteranceRate s1.settings.speechRate with
      | none => showNotification (utf16 "Text-to-speech not available") "error" s1
      | some rate =>
        let currentUtterance : Utterance := { text := text, rate := rate, pitch := 1, volume := 1 }
        { s1 with
          speechSynthesis := some { engine with speaking := true, spoken := engine.spoken ++ [currentUtterance] } }

/-- `speakSelectedText()`. -/
def speakSelectedText (s : State) : State :=
  let selectedText := trim s.document.selection
  if !selectedText.isEmpty then speakText selectedText s
  else showNotification (utf16 "Please select some text first") "info" s

/-- Lines 135-141 of `readEntirePage`: the text of the first match of the
selector list, else the text of the body. -/
def textToRead (d : Document) : JSString :=
  match d.querySelector (matchesMainContent d.quirksMode) with
  | some mainContent => mainContent.innerText d.notification
  | none => d.body.innerText d.notification

/-- Lines 144-147 of `readEntirePage`. -/
def cleanText (text : JSString) : JSString :=
  trim (replaceRuns isNewline (replaceRuns isWhiteSpace text))

/-- `readEntirePage()`. -/
def readEntirePage (s : State) : State :=
  let s1 := stopSpeech s
  let clean := cleanText (textToRead s1.document)
  if clean.isEmpty || clean.length < 10 then
    showNotification (utf16 "No readable text found on page") "info" s1
  else
    let textToSpeak := substring0 clean 3000
    if !textToSpeak.isEmpty then
      showNotification (utf16 "Reading page... (first 3000 characters)") "success"
        (speakText textToSpeak s1)
    else s1

/-! ## Voice input -/

/-- The `message` of the `TypeError` thrown by `activeElement.tagName` when
`document.activeElement` is `null`. -/
def nullActiveElementMessage : JSString :=
  utf16 "Cannot read properties of null (reading \x27tagName\x27)"

/-- The `message` of the `InvalidStateError` thrown by `recognition.start()`
while a session is running. -/
def alreadyStartedMessage : JSString :=
  utf16 "Failed to execute \x27start\x27 on \x27SpeechRecognition\x27: recognition has already started."

/-- The handler `recognition.onresult` of lines 228-248 installed for the
element with index `activeElement`, run on an event whose first alternative
has the given transcript. On a content-editable element the call of the
undefined `document.exceecommand` throws; on a field without selection the
value is assigned and the selection setter then throws. The value and the
selection go through the setters of the element. -/
def onresult (activeElement : Nat) (transcript : JSString) (s : State) : State :=
  match s.document.element? activeElement with
  | none => s
  | some el =>
    if el.isContentEditable then
      showNotification (utf16 "Error inserting text") "error" s
    else
      let start := el.selectionStart.getD 0
      let endPos := el.selectionEnd.getD 0
      let text := el.value
      let value := text.take start ++ transcript ++ text.drop endPos
      match el.selectionStart with
      | none =>
        showNotification (utf16 "Error inserting text") "error"
          { s with document := s.document.setElement activeElement (el.setValue value) }
      | some _ =>
        showNotification (utf16 "Text inserted: " ++ transcript) "success"
          { s with
            document := s.document.setElement activeElement
              ((el.setValue value).setSelection (start + transcript.length)) }

/-- `startVoiceInput()`. -/
def startVoiceInput (s : State) : State :=
  match s.recognition with
  | none => showNotification (utf16 "Speech recognition not supported in this browser") "error" s
  | some recognition =>
    match s.document.element? s.document.activeElement with
    | none => showNotification (utf16 "Voice input error: " ++ nullActiveElementMessage) "error" s
    | some activeElement =>
      if !(["INPUT", "TEXTAREA"].contains activeElement.tagName) &&
          !activeElement.isContentEditable then
        showNotification (utf16 "Please click on a text field first") "info" s
      else
        let s1 := showNotification (utf16 "Listening... Speak now") "info" s
        let installed : Recognition :=
          { recognition with handlerTarget := some s.document.activeElement }
        if recognition.listening then
          showNotification (utf16 "Voice input error: " ++ alreadyStartedMessage) "error"
            { s1 with recognition := some installed }
        else
          { s1 with
            recognition := some { installed with listening := true, startCalls := installed.startCalls + 1 } }

/-- The engine delivers a result to the installed `onresult` handler. -/
def recognitionResult (transcript : JSString) (s : State) : State :=
  match s.recognition with
  | none => s
  | some recognition =>
    match recognition.handlerTarget with
    | none => s
    | some activeElement => onresult activeElement transcript s

/-- The engine reports an error to the installed `onerror` handler of lines
250-252. -/
def recognitionError (error : JSString) (s : State) : State :=
  match s.recognition with
  | none => s
  | some recognition =>
    match recognition.handlerTarget with
    | none => s
    | some _ => showNotification (utf16 "Recognition error: " ++ error) "error" s

/-- The engine ends the session: the installed `onend` handler of lines
254-256. -/
def recognitionEnd (s : State) : State :=
  match s.recognition with
  | none => s
  | some recognition =>
    let s1 : State := { s with recognition := some { recognition with listening := false } }
    match recognition.handlerTarget with
    | none => s1
    | some _ => showNotification (utf16 "Listening stopped") "info" s1

/-! ## Messages and keyboard shortcuts -/

/-- A message received from the popup or the background worker: the `action`
string and the payload fields the listener reads. -/
structure Request where
  action : String
  enabled : Bool
  rate : Rat
  change : String
  theme : String
  settings : Option StoredSettings

/-- The listener of `chrome.runtime.onMessage` of lines 34-99. -/
def onMessage (request : Request) (s : State) : State :=
  if request.action = "toggleTTS" then
    { s with settings := { s.settings with ttsEnabled := request.enabled } }
  else if request.action = "toggleVoice" then
    { s with settings := { s.settings with voiceEnabled := request.enabled } }
  else if request.action = "toggleFocus" then
    applyFocusMode { s with settings := { s.settings with focusMode := request.enabled } }
  else if request.action = "toggleKeyboard" then
    applyKeyboardNavigation { s with settings := { s.settings with keyboardNav := request.enabled } }
  else if request.action = "setSpeechRate" then
    { s with settings := { s.settings with speechRate := request.rate } }
  else if request.action = "changeFontSize" then changeFontSize request.change s
  else if request.action = "changeTheme" then
    applyTheme { s with settings := { s.settings with theme := request.theme } }
  else if request.action = "speakSelection" then speakSelectedText s
  else if request.action = "stopSpeech" then stopSpeech s
  else if request.action = "startVoiceInput" then startVoiceInput s
  else if request.action = "readPage" then readEntirePage s
  else if request.action = "resetAll" then resetAllSettings s
  else if request.action = "applySettings" then
    match request.settings with
    | some settings => applyAllSettings { s with settings := spread s.settings settings }
    | none => s
  else s

/-- The `keydown` listener of lines 423-439. -/
def onKeydown (ctrlKey shiftKey : Bool) (key : String) (s : State) : State :=
  let s1 := if ctrlKey && shiftKey && key == "S" then speakSelectedText s else s
  if ctrlKey && shiftKey && key == "V" then startVoiceInput s1 else s1

/-- The state right after the script ran on a page: the default settings of
lines 4-12, handlers not yet installed, and the `applyAllSettings()` call of
line 444. -/
def scriptLoaded (store : StoredSettings) (document : Document)
    (speechSynthesis : Option SpeechSynthesis) (recognitionSupported : Bool) : State :=
  applyAllSettings
    { settings := defaultSettings
      store := store
      document := document
      speechSynthesis := speechSynthesis
      recognition :=
        if recognitionSupported then
          some { listening := false, startCalls := 0, handlerTarget := none }
        else none
      notifications := [] }

/-- A `changeTheme` message. -/
def changeThemeRequest (theme : String) : Request :=
  { action := "changeTheme", enabled := false, rate := 1, change := "", theme := theme,
    settings := none }

/-! ## Example pages -/

/-- An element with no attribute, no text and no selection; its `value`
setter is the one of a `textarea`, of a text `input`, or an ordinary
property, by the tag name. -/
def blankElement (tagName : String) : Element :=
  { tagName := tagName, id := "", classList := [], attributes := [], isContentEditable := false,
    valueKind :=
      if tagName = "TEXTAREA" then .textarea
      else if tagName = "INPUT" then .singleLine
      else .other (fun v => v)
    value := [], selectionStart := none, selectionEnd := none, textContent := [],
    innerText := fun _ => [] }

/-- A page whose body is empty, in a browser that has both engines, right
after the script was loaded with an empty store. -/
def blankState : State :=
  { settings := defaultSettings
    store := emptyStore
    document :=
      { quirksMode := false, rootFontSize := [], body := blankElement "BODY", elements := [],
        activeElement := 0,
        selection := [], notification := none }
    speechSynthesis := some { speaking := false, spoken := [], cancelCalls := 0 }
    recognition := some { listening := false, startCalls := 0, handlerTarget := none }
    notifications := [] }

/-! ## Frame lemmas -/

@[simp] theorem showNotification_settings (m : JSString) (t : String) (s : State) :
    (showNotification m t s).settings = s.settings := rfl

@[simp] theorem showNotification_store (m : JSString) (t : String) (s : State) :
    (showNotification m t s).store = s.store := rfl

@[simp] theorem showNotification_speechSynthesis (m : JSString) (t : String) (s : State) :
    (showNotification m t s).speechSynthesis = s.speechSynthesis := rfl

@[simp] theorem showNotification_recognition (m : JSString) (t : String) (s : State) :
    (showNotification m t s).recognition = s.recognition := rfl

@[simp] theorem showNotification_notifications (m : JSString) (t : String) (s : State) :
    (showNotification m t s).notifications = s.notifications ++ [⟨m, t⟩] := rfl

@[simp] theorem showNotification_notification (m : JSString) (t : String) (s : State) :
    (showNotification m t s).document.notification = some ⟨m, t⟩ := rfl

@[simp] theorem applyFontSize_settings (s : State) : (applyFontSize s).settings = s.settings := rfl

@[simp] theorem applyFontSize_store (s : State) : (applyFontSize s).store = s.store := rfl

@[simp] theorem applyTheme_settings (s : State) : (applyTheme s).settings = s.settings := rfl

@[simp] theorem applyTheme_store (s : State) : (applyTheme s).store = s.store := rfl

@[simp] theorem applyFocusMode_settings (s : State) : (applyFocusMode s).settings = s.settings := by
  unfold applyFocusMode; split <;> rfl

@[simp] theorem applyFocusMode_store (s : State) : (applyFocusMode s).store = s.store := by
  unfold applyFocusMode; split <;> rfl

@[simp] theorem applyKeyboardNavigation_settings (s : State) :
    (applyKeyboardNavigation s).settings = s.settings := by
  unfold applyKeyboardNavigation; split <;> rfl

@[simp] theorem applyKeyboardNavigation_store (s : State) :
    (applyKeyboardNavigation s).store = s.store := by
  unfold applyKeyboardNavigation; split <;> rfl

@[simp] theorem addARIALabels_settings (s : State) : (addARIALabels s).settings = s.settings := rfl

@[simp] theorem addARIALabels_store (s : State) : (addARIALabels s).store = s.store := rfl

@[simp] theorem applyAllSettings_settings (s : State) :
    (applyAllSettings s).settings = s.settings := by
  simp [applyAllSettings]

@[simp] theorem applyAllSettings_store (s : State) : (applyAllSettings s).store = s.store := by
  simp [applyAllSettings]

/-- Below `2^53` in magnitude every integer is a double. -/
theorem roundDouble_exact (n : Int) (h1 : -9007199254740992 < n) (h2 : n < 9007199254740992) :
    roundDouble n = n := by
  have hm : n.natAbs < 9007199254740992 := by omega
  have hq : doubleQuantum n.natAbs = 1 := by
    show doubleQuantumAux (1023 + 1) n.natAbs 1 = 1
    simp [doubleQuantumAux, hm]
  unfold roundDouble
  simp only [hq, Nat.div_one, Nat.mod_one, Nat.mul_zero, Nat.zero_lt_one, if_true, Nat.mul_one]
  exact Int.sign_mul_natAbs n

/-- The new font size computed by `changeFontSize`. -/
theorem changeFontSize_fontSize (change : String) (s : State) :
    (changeFontSize change s).settings.fontSize =
      if change = "increase" then min (roundDouble (s.settings.fontSize + 10)) 200
      else if change = "decrease" then max (roundDouble (s.settings.fontSize - 10)) 80
      else if change = "reset" then 100
      else s.settings.fontSize := by
  unfold changeFontSize
  by_cases h1 : change = "increase"
  · simp [h1]
  · by_cases h2 : change = "decrease"
    · simp [h2]
    · by_cases h3 : change = "reset"
      · simp [h3]
      · simp [h1, h2, h3]

/-- The new font size when the sum and the difference are exact. -/
theorem changeFontSize_fontSize_exact (change : String) (s : State)
    (h1 : -9007199254740982 < s.settings.fontSize) (h2 : s.settings.fontSize < 9007199254740982) :
    (changeFontSize change s).settings.fontSize =
      if change = "increase" then min (s.settings.fontSize + 10) 200
      else if change = "decrease" then max (s.settings.fontSize - 10) 80
      else if change = "reset" then 100
      else s.settings.fontSize := by
  rw [changeFontSize_fontSize, roundDouble_exact (s.settings.fontSize + 10) (by omega) (by omega),
    roundDouble_exact (s.settings.fontSize - 10) (by omega) (by omega)]

/-- The store key written by `changeFontSize`. -/
theorem changeFontSize_store (change : String) (s : State) :
    (changeFontSize change s).store.fontSize = some (changeFontSize change s).settings.fontSize := by
  simp [changeFontSize]

/-- One call of `changeFontSize` keeps the size in range and on the grid. -/
theorem changeFontSize_preserves (change : String) (s : State)
    (h : 80 ≤ s.settings.fontSize ∧ s.settings.fontSize ≤ 200 ∧
      ∃ k : Int, s.settings.fontSize = 100 + 10 * k) :
    80 ≤ (changeFontSize change s).settings.fontSize ∧
      (changeFontSize change s).settings.fontSize ≤ 200 ∧
      ∃ k : Int, (changeFontSize change s).settings.fontSize = 100 + 10 * k := by
  obtain ⟨hlo, hhi, k, hk⟩ := h
  rw [changeFontSize_fontSize_exact change s (by omega) (by omega)]
  split
  · refine ⟨by omega, by omega, ?_⟩
    by_cases hk10 : k < 10
    · exact ⟨k + 1, by omega⟩
    · exact ⟨10, by omega⟩
  · split
    · refine ⟨by omega, by omega, ?_⟩
      by_cases hk2 : -2 < k
      · exact ⟨k - 1, by omega⟩
      · exact ⟨-2, by omega⟩
    · split
      · exact ⟨by omega, by omega, 0, by omega⟩
      · exact ⟨hlo, hhi, k, hk⟩

/-! ## C1, C2: font size -/

/-- The blank page with the font size `2^55`. -/
def hugeFontState : State :=
  { blankState with settings := { defaultSettings with fontSize := 36028797018963968 } }

/-- The blank page with the font size `-2^55`. -/
def negativeHugeFontState : State :=
  { blankState with settings := { defaultSettings with fontSize := -36028797018963968 } }

/-- Past `2^53` the rounded sum still exceeds every bound of the script. -/
theorem roundDouble_near_two_pow_53 (j : Int) (h0 : 0 ≤ j) (h10 : j ≤ 10) :
    200 ≤ roundDouble (9007199254740992 + j) ∧ roundDouble (-9007199254740992 - j) ≤ 80 := by
  interval_cases j <;> exact ⟨by decide, by decide⟩

/-- C1, as stated, fails: the sum and the difference are computed in doubles.
With the font size `2^55`, `changeFontSize('decrease')` leaves `2^55 - 8`, not
`max(2^55 - 10, 80) = 2^55 - 10`; with the font size `-2^55`,
`changeFontSize('increase')` leaves `-2^55 + 8`, not `-2^55 + 10`. -/
theorem changeFontSize_counterexample :
    (changeFontSize "decrease" hugeFontState).settings.fontSize = 36028797018963960 ∧
    max (hugeFontState.settings.fontSize - 10) 80 = 36028797018963958 ∧
    (changeFontSize "decrease" hugeFontState).settings.fontSize
      ≠ max (hugeFontState.settings.fontSize - 10) 80 ∧
    (changeFontSize "increase" negativeHugeFontState).settings.fontSize = -36028797018963960 ∧
    (changeFontSize "increase" negativeHugeFontState).settings.fontSize
      ≠ min (negativeHugeFontState.settings.fontSize + 10) 200 := by
  decide

/-- C1, amended: for every integer font size `f` of the current settings with
`|f| ≤ 2^53`, `changeFontSize('increase')` sets `settings.fontSize` to
`min(f + 10, 200)`, `changeFontSize('decrease')` sets it to
`max(f - 10, 80)` and `changeFontSize('reset')` sets it to `100`; whatever the
argument, the `fontSize` written to the settings store is the new
`settings.fontSize`. -/
theorem changeFontSize_spec (s : State) (hlo : -9007199254740992 ≤ s.settings.fontSize)
    (hhi : s.settings.fontSize ≤ 9007199254740992) :
    (changeFontSize "increase" s).settings.fontSize = min (s.settings.fontSize + 10) 200 ∧
    (changeFontSize "decrease" s).settings.fontSize = max (s.settings.fontSize - 10) 80 ∧
    (changeFontSize "reset" s).settings.fontSize = 100 ∧
    ∀ change : String,
      (changeFontSize change s).store.fontSize = some (changeFontSize change s).settings.fontSize := by
  refine ⟨?_, ?_, ?_, fun change => changeFontSize_store change s⟩
  · rw [changeFontSize_fontSize]
    simp only [if_true]
    by_cases h : s.settings.fontSize + 10 < 9007199254740992
    · rw [roundDouble_exact _ (by omega) h]
    · have hj := (roundDouble_near_two_pow_53 (s.settings.fontSize + 10 - 9007199254740992)
        (by omega) (by omega)).1
      have he : (9007199254740992 : Int) + (s.settings.fontSize + 10 - 9007199254740992)
          = s.settings.fontSize + 10 := by omega
      rw [he] at hj
      rw [min_eq_right hj, min_eq_right (by omega)]
  · rw [changeFontSize_fontSize]
    have hne : ¬ ("decrease" = "increase") := by decide
    simp only [hne, if_false, if_true]
    by_cases h : -9007199254740992 < s.settings.fontSize - 10
    · rw [roundDouble_exact _ h (by omega)]
    · have hj := (roundDouble_near_two_pow_53 (-9007199254740992 - (s.settings.fontSize - 10))
        (by omega) (by omega)).2
      have he : (-9007199254740992 : Int) - (-9007199254740992 - (s.settings.fontSize - 10))
          = s.settings.fontSize - 10 := by omega
      rw [he] at hj
      rw [max_eq_right hj, max_eq_right (by omega)]
  · rw [changeFontSize_fontSize]; simp

/-- C1, amended, at the largest font size it covers, `2^53`. -/
theorem changeFontSize_spec_witness :
    (-9007199254740992 : Int) ≤
      ({ blankState with settings := { defaultSettings with fontSize := 9007199254740992 } }
        : State).settings.fontSize ∧
    (changeFontSize "increase"
      { blankState with settings := { defaultSettings with fontSize := 9007199254740992 } }
      ).settings.fontSize = 200 ∧
    (changeFontSize "decrease"
      { blankState with settings := { defaultSettings with fontSize := 9007199254740992 } }
      ).settings.fontSize = 9007199254740982 ∧
    (changeFontSize "reset"
      { blankState with settings := { defaultSettings with fontSize := 9007199254740992 } }
      ).settings.fontSize = 100 :=
  have h := changeFontSize_spec
    { blankState with settings := { defaultSettings with fontSize := 9007199254740992 } }
    (by decide) (by decide)
  ⟨by decide, h.1, h.2.1, h.2.2.1⟩

/-- C2: from settings whose font size is the default `100`, after every
finite sequence of `changeFontSize` calls with arbitrary string arguments the
font size lies in `[80, 200]` and differs from `100` by a multiple of `10`. -/
theorem changeFontSize_sequence_invariant (s : State)
    (h : s.settings.fontSize = defaultSettings.fontSize) (changes : List String) :
    80 ≤ (changes.foldl (fun st change => changeFontSize change st) s).settings.fontSize ∧
    (changes.foldl (fun st change => changeFontSize change st) s).settings.fontSize ≤ 200 ∧
    ∃ k : Int,
      (changes.foldl (fun st change => changeFontSize change st) s).settings.fontSize
        = 100 + 10 * k := by
  have h0 : 80 ≤ s.settings.fontSize ∧ s.settings.fontSize ≤ 200 ∧
      ∃ k : Int, s.settings.fontSize = 100 + 10 * k := by
    rw [h]; exact ⟨by decide, by decide, 0, by decide⟩
  clear h
  induction changes generalizing s with
  | nil => exact h0
  | cons change rest ih => exact ih (changeFontSize change s) (changeFontSize_preserves change s h0)

/-- C2 at a concrete run: twelve increases, an unrecognised argument and two
decreases from the blank page. -/
theorem changeFontSize_sequence_invariant_witness :
    blankState.settings.fontSize = defaultSettings.fontSize ∧
    (80 ≤ ((List.replicate 12 "increase" ++ ["bigger", "decrease", "decrease"]).foldl
        (fun st change => changeFontSize change st) blankState).settings.fontSize ∧
      ((List.replicate 12 "increase" ++ ["bigger", "decrease", "decrease"]).foldl
        (fun st change => changeFontSize change st) blankState).settings.fontSize ≤ 200 ∧
      ∃ k : Int,
        ((List.replicate 12 "increase" ++ ["bigger", "decrease", "decrease"]).foldl
          (fun st change => changeFontSize change st) blankState).settings.fontSize
          = 100 + 10 * k) :=
  ⟨rfl, changeFontSize_sequence_invariant blankState rfl
    (List.replicate 12 "increase" ++ ["bigger", "decrease", "decrease"])⟩

/-! ## C3: reset followed by a load from the store -/

/-- Every key the record holds has the value of the hard-coded defaults. -/
def holdsOnlyDefaults (r : StoredSettings) : Prop :=
  (∀ v, r.ttsEnabled = some v → v = false) ∧
  (∀ v, r.voiceEnabled = some v → v = false) ∧
  (∀ v, r.speechRate = some v → v = 1) ∧
  (∀ v, r.fontSize = some v → v = 100) ∧
  (∀ v, r.theme = some v → v = "normal") ∧
  (∀ v, r.focusMode = some v → v = false) ∧
  (∀ v, r.keyboardNav = some v → v = true)

/-- The blank page with a store seeded with a font size of 150 and the dark
theme. -/
def seededState : State :=
  { blankState with store := { emptyStore with fontSize := some 150, theme := some "dark" } }

theorem resetAllSettings_settings (s : State) :
    (resetAllSettings s).settings = defaultSettings := by
  simp [resetAllSettings]

theorem resetAllSettings_store (s : State) : (resetAllSettings s).store = s.store := by
  simp [resetAllSettings]

theorem spread_defaults_iff (r : StoredSettings) :
    spread defaultSettings r = defaultSettings ↔ holdsOnlyDefaults r := by
  obtain ⟨a, b, c, d, e, f, g⟩ := r
  simp only [spread, defaultSettings, holdsOnlyDefaults, Settings.mk.injEq]
  cases a <;> cases b <;> cases c <;> cases d <;> cases e <;> cases f <;> cases g <;> simp

/-- C3, as stated, fails: with a store that holds `fontSize: 150` and
`theme: 'dark'`, `resetAll` followed by `loadAndApply` leaves the stored
values, not the hard-coded defaults, in the settings of the page. -/
theorem resetAll_loadAndApply_counterexample :
    (loadAndApply (resetAllSettings seededState)).settings ≠ defaultSettings ∧
    (loadAndApply (resetAllSettings seededState)).settings.fontSize = 150 ∧
    (loadAndApply (resetAllSettings seededState)).settings.theme = "dark" := by
  decide

/-- C3, amended: for every content of the settings store, `resetAll` leaves
the store as it is, and `resetAll` followed by `loadAndApply` leaves the
settings of the page equal to the hard-coded defaults overridden by every
key the store holds; they equal the hard-coded defaults exactly when every
key the store holds has its default value (in particular when the store is
empty). -/
theorem resetAll_loadAndApply_spec (s : State) :
    (resetAllSettings s).store = s.store ∧
    (loadAndApply (resetAllSettings s)).settings = spread defaultSettings s.store ∧
    ((loadAndApply (resetAllSettings s)).settings = defaultSettings ↔ holdsOnlyDefaults s.store) ∧
    holdsOnlyDefaults emptyStore := by
  have h : (loadAndApply (resetAllSettings s)).settings = spread defaultSettings s.store := by
    simp [loadAndApply, resetAllSettings_settings, resetAllSettings_store]
  refine ⟨resetAllSettings_store s, h, ?_, ?_⟩
  · rw [h]; exact spread_defaults_iff s.store
  · simp [holdsOnlyDefaults, emptyStore]

/-! ## White-space normalisation -/

/-- The normalisation the specification describes: every run of white space
collapsed to one space, then the ends trimmed. -/
def normalizeWhiteSpace (text : JSString) : JSString :=
  trim (replaceRuns isWhiteSpace text)

theorem isWhiteSpace_of_isNewline (c : Nat) (h : isNewline c = true) : isWhiteSpace c = true := by
  have hc : c = 10 := by simpa [isNewline] using h
  subst hc
  decide

theorem replaceRunsAux_isWhiteSpace_no_newline (inRun : Bool) (text : JSString) :
    ∀ x ∈ replaceRunsAux isWhiteSpace inRun text, isNewline x = false := by
  induction text generalizing inRun with
  | nil => intro x hx; simp [replaceRunsAux] at hx
  | cons c cs ih =>
    intro x hx
    unfold replaceRunsAux at hx
    by_cases hc : isWhiteSpace c = true
    · rw [if_pos hc] at hx
      cases inRun with
      | true => exact ih true x (by simpa using hx)
      | false =>
        simp only [Bool.false_eq_true, if_false, List.mem_cons] at hx
        rcases hx with rfl | hx
        · decide
        · exact ih true x hx
    · rw [if_neg hc] at hx
      simp only [List.mem_cons] at hx
      rcases hx with rfl | hx
      · cases hn : isNewline x with
        | false => rfl
        | true => exact absurd (isWhiteSpace_of_isNewline x hn) hc
      · exact ih false x hx

theorem replaceRunsAux_of_no_match (p : Nat → Bool) (text : JSString)
    (h : ∀ x ∈ text, p x = false) : replaceRunsAux p false text = text := by
  induction text with
  | nil => rfl
  | cons c cs ih =>
    have hc : p c = false := h c (List.mem_cons_self c cs)
    have hcs : ∀ x ∈ cs, p x = false := fun x hx => h x (List.mem_cons_of_mem c hx)
    simp [replaceRunsAux, hc, ih hcs]

/-- The second `replace` of line 146 finds nothing to replace, so the text
cleaned by `readEntirePage` is the normalised text. -/
theorem cleanText_eq_normalizeWhiteSpace (text : JSString) :
    cleanText text = normalizeWhiteSpace text := by
  unfold cleanText normalizeWhiteSpace
  congr 1
  exact replaceRunsAux_of_no_match isNewline _
    (replaceRunsAux_isWhiteSpace_no_newline false text)

/-! ## Speech lemmas -/

@[simp] theorem stopSpeech_settings (s : State) : (stopSpeech s).settings = s.settings := by
  unfold stopSpeech
  cases s.speechSynthesis with
  | none => rfl
  | some engine => by_cases h : engine.speaking = true <;> simp [h]

theorem stopSpeech_spoken (s : State) :
    (stopSpeech s).speechSynthesis.map (fun e => e.spoken)
      = s.speechSynthesis.map (fun e => e.spoken) := by
  unfold stopSpeech
  cases hs : s.speechSynthesis with
  | none => simp [hs]
  | some engine => by_cases h : engine.speaking = true <;> simp [h, hs]

theorem stopSpeech_engine (s : State) (engine : SpeechSynthesis)
    (h : s.speechSynthesis = some engine) :
    ∃ engine', (stopSpeech s).speechSynthesis = some engine' ∧ engine'.spoken = engine.spoken := by
  unfold stopSpeech
  rw [h]
  by_cases hsp : engine.speaking = true
  · exact ⟨{ engine with speaking := false, cancelCalls := engine.cancelCalls + 1 },
      by simp [hsp], rfl⟩
  · exact ⟨engine, by simp [hsp, h], rfl⟩

/-- The utterances `speakText` hands to `speak` for a non-empty text: one,
with the rate the setter stored, or none when the setter throws. -/
def utterancesFor (speechRate : Rat) (text : JSString) : List Utterance :=
  match utteranceRate speechRate with
  | some rate => [{ text := text, rate := rate, pitch := 1, volume := 1 }]
  | none => []

/-- Speaking a non-empty text on a page with an engine hands `speak` the
utterances of `utterancesFor`. -/
theorem speakText_spoken (text : JSString) (s : State) (engine : SpeechSynthesis)
    (h : s.speechSynthesis = some engine) (htext : text ≠ []) :
    ∃ engine', (speakText text s).speechSynthesis = some engine' ∧
      engine'.spoken = engine.spoken ++ utterancesFor s.settings.speechRate text := by
  obtain ⟨e1, he1, hsp⟩ := stopSpeech_engine s engine h
  unfold speakText utterancesFor
  have hne : text.isEmpty = false := by
    cases text with
    | nil => exact absurd rfl htext
    | cons c cs => rfl
  simp only [hne, Bool.false_eq_true, if_false, he1, stopSpeech_settings]
  cases hr : utteranceRate s.settings.speechRate with
  | none => exact ⟨e1, by simp [he1], by simp [hsp]⟩
  | some rate => exact ⟨_, rfl, by simp [hsp]⟩

/-- Speaking the empty text hands nothing to `speak`. -/
theorem speakText_empty (s : State) : speakText [] s = stopSpeech s := by
  simp [speakText]

/-- Speaking a non-empty text appends the utterances of `utterancesFor` to
what the engine, if there is one, was handed. -/
theorem speakText_spoken_map (text : JSString) (s : State) (htext : text ≠ []) :
    (speakText text s).speechSynthesis.map (fun e => e.spoken)
      = s.speechSynthesis.map (fun e => e.spoken ++ utterancesFor s.settings.speechRate text) := by
  cases hs : s.speechSynthesis with
  | none =>
    have hne : text.isEmpty = false := by
      cases text with
      | nil => exact absurd rfl htext
      | cons c cs => rfl
    simp [speakText, stopSpeech, hs, hne]
  | some engine =>
    obtain ⟨e, he, hsp⟩ := speakText_spoken text s engine hs htext
    simp [he, hsp]

/-- The setter throws exactly for the rates of magnitude `2^128 - 2^103` and
more. -/
theorem utteranceRate_eq_none_iff (rate : Rat) :
    utteranceRate rate = none ↔ 340282356779733661637539395458142568448 ≤ |rate| := by
  have hden : (0 : Rat) < (rate.den : Rat) := by exact_mod_cast rate.den_pos
  have habs : |rate| = (rate.num.natAbs : Rat) / (rate.den : Rat) := by
    conv_lhs => rw [← Rat.num_div_den rate]
    rw [abs_div, Nat.abs_cast, Nat.cast_natAbs, Int.cast_abs]
  have hiff : (340282356779733661637539395458142568448 : Rat) ≤ |rate| ↔
      340282356779733661637539395458142568448 * rate.den ≤ rate.num.natAbs := by
    rw [habs, le_div_iff₀ hden]
    exact_mod_cast Iff.rfl
  rw [hiff]
  unfold utteranceRate
  by_cases h : 340282356779733661637539395458142568448 * rate.den ≤ rate.num.natAbs
  · simp [h]
  · rw [if_neg h]
    simp only [h, iff_false]
    split
    · simp
    · split <;> simp

theorem dropWhile_of_no_match (p : Nat → Bool) (text : JSString)
    (h : ∀ x ∈ text, p x = false) : text.dropWhile p = text := by
  cases text with
  | nil => rfl
  | cons c cs => simp [List.dropWhile, h c (List.mem_cons_self c cs)]

/-- A text without white space is its own normalisation. -/
theorem normalizeWhiteSpace_of_no_whiteSpace (text : JSString)
    (h : ∀ x ∈ text, isWhiteSpace x = false) : normalizeWhiteSpace text = text := by
  unfold normalizeWhiteSpace replaceRuns trim
  rw [replaceRunsAux_of_no_match isWhiteSpace text h, dropWhile_of_no_match isWhiteSpace text h,
    dropWhile_of_no_match isWhiteSpace text.reverse (fun x hx => h x (List.mem_reverse.mp hx)),
    List.reverse_reverse]

/-! ## C4, C5: reading the page -/

/-- A page whose `main` element renders 5000 letters `a`, and whose selection
is empty. -/
def longPage : State :=
  { blankState with
    document :=
      { blankState.document with
        elements := [{ blankElement "MAIN" with innerText := fun _ => List.replicate 5000 97 }] } }

/-- A page whose body renders the seven code units of `  hi \n  `. -/
def shortPage : State :=
  { blankState with
    document :=
      { blankState.document with
        body := { blankElement "BODY" with innerText := fun _ => [32, 32, 104, 105, 32, 10, 32] } } }

/-- A `setSpeechRate` message. -/
def setSpeechRateRequest (rate : Rat) : Request :=
  { action := "setSpeechRate", enabled := false, rate := rate, change := "", theme := "",
    settings := none }

/-- A page whose `main` element renders `Main content to read`. -/
def mainPage : State :=
  { blankState with
    document :=
      { blankState.document with
        elements := [{ blankElement "MAIN" with innerText := fun _ => utf16 "Main content to read" }] } }

/-- C4, as stated, fails: after a `setSpeechRate` message with the rate
`2^128`, which no 32-bit float is near, `readEntirePage` on a page whose main
content normalises to 20 code units hands no utterance to the engine: the
assignment of the rate throws and the handler of `speakText` shows
`Text-to-speech not available`. -/
theorem readEntirePage_rate_counterexample :
    (onMessage (setSpeechRateRequest 340282366920938463463374607431768211456)
      mainPage).settings.speechRate = 340282366920938463463374607431768211456 ∧
    (normalizeWhiteSpace (textToRead (stopSpeech
      (onMessage (setSpeechRateRequest 340282366920938463463374607431768211456)
        mainPage)).document)).length = 20 ∧
    (readEntirePage (onMessage (setSpeechRateRequest 340282366920938463463374607431768211456)
      mainPage)).speechSynthesis.map (fun e => e.spoken) = some [] ∧
    (readEntirePage (onMessage (setSpeechRateRequest 340282366920938463463374607431768211456)
      mainPage)).notifications.map (fun n => n.message)
      = [utf16 "Text-to-speech not available", utf16 "Reading page... (first 3000 characters)"] := by
  decide

/-- C4, amended: if the magnitude of `settings.speechRate` is below
`2^128 - 2^103` (so that a 32-bit float is near it), and the text
`readEntirePage` extracts (the text of the selected content when it is read,
that is after the initial `stopSpeech`) normalises (runs of white space
collapsed to one space, ends trimmed) to a string `c` of at least 10 code
units, then `readEntirePage` hands exactly one utterance to the speech engine
(the utterances the engine of the page has received grow by that one), its
text is the first `min(3000, |c|)` code units of `c`, and its rate is the one
the rate setter stores for `settings.speechRate`. -/
theorem readEntirePage_speaks_first_3000 (s : State) (c : JSString)
    (hc : normalizeWhiteSpace (textToRead (stopSpeech s).document) = c)
    (hlen : 10 ≤ c.length)
    (hrate : |s.settings.speechRate| < 340282356779733661637539395458142568448) :
    ∃ rate, utteranceRate s.settings.speechRate = some rate ∧
      (readEntirePage s).speechSynthesis.map (fun e => e.spoken)
        = s.speechSynthesis.map (fun e => e.spoken ++
            [{ text := c.take 3000, rate := rate, pitch := 1, volume := 1 }]) ∧
      (c.take 3000).length = min 3000 c.length := by
  have hsome : ∃ rate, utteranceRate s.settings.speechRate = some rate := by
    cases hr : utteranceRate s.settings.speechRate with
    | none => exact absurd ((utteranceRate_eq_none_iff _).mp hr) (not_le.mpr hrate)
    | some rate => exact ⟨rate, rfl⟩
  obtain ⟨rate, hr⟩ := hsome
  have htake : c.take 3000 ≠ [] := by
    intro h0
    have hl : (c.take 3000).length = 0 := by rw [h0]; rfl
    rw [List.length_take] at hl
    omega
  refine ⟨rate, hr, ?_, List.length_take 3000 c⟩
  unfold readEntirePage
  dsimp only
  rw [cleanText_eq_normalizeWhiteSpace, hc]
  have h1 : (c.isEmpty || decide (c.length < 10)) = false := by
    cases c with
    | nil => simp at hlen
    | cons x xs => simp only [List.isEmpty_cons, Bool.false_or, decide_eq_false_iff_not]; omega
  have h2 : (substring0 c 3000).isEmpty = false := by
    unfold substring0
    cases hck : c.take 3000 with
    | nil => exact absurd hck htake
    | cons x xs => rfl
  simp only [h1, Bool.false_eq_true, if_false, h2, Bool.not_false, if_true,
    showNotification_speechSynthesis]
  unfold substring0
  rw [speakText_spoken_map (c.take 3000) (stopSpeech s) htake, stopSpeech_settings]
  have hu : utterancesFor s.settings.speechRate (c.take 3000)
      = [{ text := c.take 3000, rate := rate, pitch := 1, volume := 1 }] := by
    simp [utterancesFor, hr]
  rw [hu]
  cases hs : s.speechSynthesis with
  | none => simp [stopSpeech, hs]
  | some engine =>
    obtain ⟨e1, he1, hsp1⟩ := stopSpeech_engine s engine hs
    simp [he1, hsp1]

/-- C4, amended, on the page with 5000 letters of main content and the
default rate: exactly one utterance, the first 3000 letters. -/
theorem readEntirePage_speaks_first_3000_witness :
    normalizeWhiteSpace (textToRead (stopSpeech longPage).document) = List.replicate 5000 97 ∧
    10 ≤ (List.replicate 5000 97).length ∧
    |longPage.settings.speechRate| < 340282356779733661637539395458142568448 ∧
    utteranceRate longPage.settings.speechRate = some 1 ∧
    ∃ rate, utteranceRate longPage.settings.speechRate = some rate ∧
      (readEntirePage longPage).speechSynthesis.map (fun e => e.spoken)
        = longPage.speechSynthesis.map (fun e => e.spoken ++
            [{ text := (List.replicate 5000 97).take 3000, rate := rate, pitch := 1,
               volume := 1 }]) ∧
      ((List.replicate 5000 97).take 3000).length = min 3000 (List.replicate 5000 97).length :=
  have hc : normalizeWhiteSpace (textToRead (stopSpeech longPage).document)
      = List.replicate 5000 97 :=
    normalizeWhiteSpace_of_no_whiteSpace (List.replicate 5000 97)
      (fun x hx => by rw [List.eq_of_mem_replicate hx]; decide)
  have hlen : 10 ≤ (List.replicate 5000 97).length := by
    rw [List.length_replicate]; decide
  have hrate : |longPage.settings.speechRate| < 340282356779733661637539395458142568448 := by
    show |(1 : Rat)| < 340282356779733661637539395458142568448
    norm_num
  ⟨hc, hlen, hrate, by decide,
    readEntirePage_speaks_first_3000 longPage (List.replicate 5000 97) hc hlen hrate⟩

/-- C5: if the text `readEntirePage` extracts normalises (runs of white space
collapsed to one space, ends trimmed) to fewer than 10 code units, the empty
string included, then `readEntirePage` hands no utterance to the speech
engine, and the last notification it shows, which stays attached to the page,
is `No readable text found on page`. -/
theorem readEntirePage_too_short (s : State)
    (h : (normalizeWhiteSpace (textToRead (stopSpeech s).document)).length < 10) :
    (readEntirePage s).speechSynthesis.map (fun e => e.spoken)
      = s.speechSynthesis.map (fun e => e.spoken) ∧
    (readEntirePage s).notifications = (stopSpeech s).notifications ++
      [{ message := utf16 "No readable text found on page", type := "info" }] ∧
    (readEntirePage s).document.notification
      = some { message := utf16 "No readable text found on page", type := "info" } := by
  have h1 : ((cleanText (textToRead (stopSpeech s).document)).isEmpty ||
      decide ((cleanText (textToRead (stopSpeech s).document)).length < 10)) = true := by
    rw [cleanText_eq_normalizeWhiteSpace]
    simp [h]
  unfold readEntirePage
  dsimp only
  simp only [h1, if_true, showNotification_speechSynthesis, showNotification_notifications,
    showNotification_notification]
  exact ⟨stopSpeech_spoken s, trivial, trivial⟩

/-- C5 on the page whose body renders `  hi \n  `: nothing is spoken. -/
theorem readEntirePage_too_short_witness :
    (normalizeWhiteSpace (textToRead (stopSpeech shortPage).document)).length < 10 ∧
    ((readEntirePage shortPage).speechSynthesis.map (fun e => e.spoken)
      = shortPage.speechSynthesis.map (fun e => e.spoken) ∧
    (readEntirePage shortPage).notifications = (stopSpeech shortPage).notifications ++
      [{ message := utf16 "No readable text found on page", type := "info" }] ∧
    (readEntirePage shortPage).document.notification
      = some { message := utf16 "No readable text found on page", type := "info" }) :=
  ⟨by decide, readEntirePage_too_short shortPage (by decide)⟩

/-! ## C6: which element is read -/

/-- The element is matched by one of the five selectors of line 135: it is a
`main` element, an `article` element, has the class `content`, has the id
`content` (class and id up to ASCII case in a quirks-mode document), or has
the attribute `role="main"`. -/
def IsLandmark (quirksMode : Bool) (el : Element) : Prop :=
  el.tagName = "MAIN" ∨ el.tagName = "ARTICLE" ∨
  (∃ c ∈ el.classList, sameName quirksMode c "content" = true) ∨
  sameName quirksMode el.id "content" = true ∨ el.getAttribute "role" = some "main"

/-- The selection the specification describes, in its order of preference:
the first `main` element, else the first `article` element, else the first
element of class `content`, else the first element with id `content`, else
the first element with `role="main"`. -/
def landmarkByPreference (d : Document) : Option Element :=
  d.all.find? (fun el => el.tagName == "MAIN") <|>
  d.all.find? (fun el => el.tagName == "ARTICLE") <|>
  d.all.find? (fun el => el.classList.any (fun c => sameName d.quirksMode c "content")) <|>
  d.all.find? (fun el => sameName d.quirksMode el.id "content") <|>
  d.all.find? (fun el => el.getAttribute "role" == some "main")

/-- The text of the landmark chosen by preference, else the text of the
body. -/
def textByPreference (d : Document) : JSString :=
  match landmarkByPreference d with
  | some el => el.innerText d.notification
  | none => d.body.innerText d.notification

/-- A page with an `article` element followed, in tree order, by a `main`
element. -/
def articleThenMainPage : State :=
  { blankState with
    document :=
      { blankState.document with
        elements :=
          [{ blankElement "ARTICLE" with innerText := fun _ => utf16 "The article text" },
           { blankElement "MAIN" with innerText := fun _ => utf16 "The main text" }] } }

/-- A quirks-mode page with a `div` of class `Content` followed by a `main`
element. -/
def quirksPage : State :=
  { blankState with
    document :=
      { blankState.document with
        quirksMode := true
        elements :=
          [{ blankElement "DIV" with
              classList := ["Content"], innerText := fun _ => utf16 "The div text" },
           { blankElement "MAIN" with innerText := fun _ => utf16 "The main text" }] } }

/-- Outside quirks mode a class or id matches when it is the same string. -/
theorem sameName_standards (name selector : String) :
    sameName false name selector = true ↔ name = selector := by
  simp [sameName]

theorem matchesMainContent_iff (quirksMode : Bool) (el : Element) :
    matchesMainContent quirksMode el = true ↔ IsLandmark quirksMode el := by
  simp [matchesMainContent, IsLandmark, or_assoc]

theorem matchesMainContent_eq_false_iff (quirksMode : Bool) (el : Element) :
    matchesMainContent quirksMode el = false ↔ ¬ IsLandmark quirksMode el := by
  rw [← matchesMainContent_iff]; simp

/-- What `find?` returns: the match of least index, or nothing when nothing
matches. -/
theorem find?_first_match (p : Element → Bool) (l : List Element) :
    (∃ i el, l.get? i = some el ∧ p el = true ∧
        (∀ j el', j < i → l.get? j = some el' → p el' = false) ∧ l.find? p = some el) ∨
    ((∀ el ∈ l, p el = false) ∧ l.find? p = none) := by
  induction l with
  | nil => right; simp
  | cons a rest ih =>
    by_cases ha : p a = true
    · left
      refine ⟨0, a, rfl, ha, ?_, by simp [List.find?, ha]⟩
      intro j el' hj
      omega
    · have ha' : p a = false := by simpa using ha
      rcases ih with ⟨i, el, hget, hp, hmin, hfind⟩ | ⟨hall, hfind⟩
      · left
        refine ⟨i + 1, el, by simpa using hget, hp, ?_, by simp [List.find?, ha', hfind]⟩
        intro j el' hj hgetj
        cases j with
        | zero =>
          have : a = el' := by simpa using hgetj
          rw [← this]; exact ha'
        | succ k => exact hmin k el' (by omega) (by simpa using hgetj)
      · right
        refine ⟨?_, by simp [List.find?, ha', hfind]⟩
        intro el hel
        rcases List.mem_cons.mp hel with rfl | hel
        · exact ha'
        · exact hall el hel

/-- C6, as stated, fails: on the page with an `article` element followed by a
`main` element the text taken is the text of the `article` element, not the
text of the `main` element that the order of preference selects, and the
article text is what is spoken. -/
theorem readEntirePage_preference_counterexample :
    textToRead (stopSpeech articleThenMainPage).document = utf16 "The article text" ∧
    textByPreference (stopSpeech articleThenMainPage).document = utf16 "The main text" ∧
    textToRead (stopSpeech articleThenMainPage).document
      ≠ textByPreference (stopSpeech articleThenMainPage).document ∧
    (readEntirePage articleThenMainPage).speechSynthesis.map (fun e => e.spoken)
      = some [{ text := utf16 "The article text", rate := 1, pitch := 1, volume := 1 }] := by
  decide

/-- C6, amended: for every document, `readEntirePage` takes its text from the
first element in tree order (the body, then its descendants) that matches one
of the five selectors, that is a `main` element, an `article` element, an
element of class `content`, an element with id `content` (class and id up to
ASCII case in a quirks-mode document) or an element with `role="main"`,
whichever of these comes first in the document; when no element matches it
takes the text of the body. So whenever an element matches and no element
before it does, the text read is the text of that element, whatever follows
it: an `article` element that no match precedes is read even if a `main`
element follows. -/
theorem textToRead_first_in_tree_order (d : Document) :
    ((∃ i el, d.all.get? i = some el ∧ IsLandmark d.quirksMode el ∧
        (∀ j el', j < i → d.all.get? j = some el' → ¬ IsLandmark d.quirksMode el') ∧
        textToRead d = el.innerText d.notification) ∨
      ((∀ el ∈ d.all, ¬ IsLandmark d.quirksMode el) ∧
        textToRead d = d.body.innerText d.notification)) ∧
    (∀ i el, d.all.get? i = some el → IsLandmark d.quirksMode el →
      (∀ j el', j < i → d.all.get? j = some el' → ¬ IsLandmark d.quirksMode el') →
      textToRead d = el.innerText d.notification) := by
  have hfirst : (∃ i el, d.all.get? i = some el ∧ IsLandmark d.quirksMode el ∧
        (∀ j el', j < i → d.all.get? j = some el' → ¬ IsLandmark d.quirksMode el') ∧
        textToRead d = el.innerText d.notification) ∨
      ((∀ el ∈ d.all, ¬ IsLandmark d.quirksMode el) ∧
        textToRead d = d.body.innerText d.notification) := by
    rcases find?_first_match (matchesMainContent d.quirksMode) d.all with
      ⟨i, el, hget, hp, hmin, hfind⟩ | ⟨hall, hfind⟩
    · left
      refine ⟨i, el, hget, (matchesMainContent_iff d.quirksMode el).mp hp, ?_, ?_⟩
      · intro j el' hj hgetj
        exact (matchesMainContent_eq_false_iff d.quirksMode el').mp (hmin j el' hj hgetj)
      · simp [textToRead, Document.querySelector, hfind]
    · right
      refine ⟨fun el hel =>
        (matchesMainContent_eq_false_iff d.quirksMode el).mp (hall el hel), ?_⟩
      simp [textToRead, Document.querySelector, hfind]
  refine ⟨hfirst, ?_⟩
  intro i el hget hland hbefore
  rcases hfirst with ⟨i0, el0, hget0, hland0, hbefore0, htext⟩ | ⟨hnone, _⟩
  · have hi : i = i0 := by
      rcases Nat.lt_trichotomy i i0 with h | h | h
      · exact absurd hland (hbefore0 i el h hget)
      · exact h
      · exact absurd hland0 (hbefore i0 el0 h hget0)
    subst hi
    have hel : el0 = el := Option.some.inj (hget0.symm.trans hget)
    rw [← hel]
    exact htext
  · exact absurd hland (hnone el (List.get?_mem hget))

/-- C6, amended, on two pages: the `article` element that precedes the `main`
element is read, and in quirks mode so is the `div` of class `Content` that
precedes the `main` element. -/
theorem textToRead_first_in_tree_order_witness :
    textToRead articleThenMainPage.document = utf16 "The article text" ∧
    textToRead quirksPage.document = utf16 "The div text" :=
  ⟨(textToRead_first_in_tree_order articleThenMainPage.document).2 1
      { blankElement "ARTICLE" with innerText := fun _ => utf16 "The article text" } rfl
      (Or.inr (Or.inl rfl))
      (fun j el' hj hget => by
        have hj0 : j = 0 := by omega
        subst hj0
        have hb : blankElement "BODY" = el' := Option.some.inj hget
        subst hb
        exact (matchesMainContent_eq_false_iff false _).mp (by decide)),
    (textToRead_first_in_tree_order quirksPage.document).2 1
      { blankElement "DIV" with
        classList := ["Content"], innerText := fun _ => utf16 "The div text" } rfl
      (Or.inr (Or.inr (Or.inl ⟨"Content", by decide, by decide⟩)))
      (fun j el' hj hget => by
        have hj0 : j = 0 := by omega
        subst hj0
        have hb : blankElement "BODY" = el' := Option.some.inj hget
        subst hb
        exact (matchesMainContent_eq_false_iff true _).mp (by decide))⟩

/-! ## C7: speaking the selection -/

/-- The blank page with a selection of two spaces. -/
def spacesSelectedPage : State :=
  { blankState with document := { blankState.document with selection := [32, 32] } }

/-- The blank page with the selection ` hi `. -/
def paddedSelectionPage : State :=
  { blankState with document := { blankState.document with selection := [32, 104, 105, 32] } }

/-- The blank page with the selection `hi` and the speech rate 20. -/
def fastRatePage : State :=
  { blankState with
    settings := { defaultSettings with speechRate := 20 }
    document := { blankState.document with selection := [104, 105] } }

/-- The blank page with the selection `hi` and the speech rate `11/10`. -/
def tenthRatePage : State :=
  { blankState with
    settings := { defaultSettings with speechRate := mkRat 11 10 }
    document := { blankState.document with selection := [104, 105] } }

/-- C7, as stated, fails: a selection of two spaces is not empty, yet
`speakSelectedText` hands nothing to the engine and asks for a selection; for
the selection ` hi ` the text of the utterance is `hi`, not the selected
text; and with the speech rate 20 the rate of the utterance is 10, with the
speech rate `11/10` it is the 32-bit float `9227469 / 2^23`. -/
theorem speakSelectedText_counterexample :
    spacesSelectedPage.document.selection ≠ [] ∧
    (speakSelectedText spacesSelectedPage).speechSynthesis.map (fun e => e.spoken) = some [] ∧
    (speakSelectedText spacesSelectedPage).notifications
      = [{ message := utf16 "Please select some text first", type := "info" }] ∧
    (speakSelectedText paddedSelectionPage).speechSynthesis.map (fun e => e.spoken)
      = some [{ text := [104, 105], rate := 1, pitch := 1, volume := 1 }] ∧
    ([104, 105] : JSString) ≠ paddedSelectionPage.document.selection ∧
    (speakSelectedText fastRatePage).speechSynthesis.map (fun e => e.spoken)
      = some [{ text := [104, 105], rate := 10, pitch := 1, volume := 1 }] ∧
    (10 : Rat) ≠ fastRatePage.settings.speechRate ∧
    (speakSelectedText tenthRatePage).speechSynthesis.map (fun e => e.spoken)
      = some [{ text := [104, 105], rate := mkRat 9227469 8388608, pitch := 1, volume := 1 }] ∧
    mkRat 9227469 8388608 ≠ tenthRatePage.settings.speechRate := by
  decide

/-- C7, amended: for every page state, `speakSelectedText` with a selection
that is empty or consists of white space only hands nothing to the speech
engine. With any other selection it hands the engine exactly one utterance
when the magnitude of `settings.speechRate` is below `2^128 - 2^103`: its
text is the selected text with the white space at both ends trimmed, and its
rate is the one the rate setter stores for `settings.speechRate`, the nearest
32-bit float clamped to `[0.1, 10]`. With a rate of larger magnitude the
setter throws and nothing is handed to the engine. -/
theorem speakSelectedText_spec (s : State) :
    (speakSelectedText s).speechSynthesis.map (fun e => e.spoken)
      = s.speechSynthesis.map (fun e =>
          if trim s.document.selection = [] then e.spoken
          else
            match utteranceRate s.settings.speechRate with
            | some rate =>
              e.spoken ++
                [{ text := trim s.document.selection, rate := rate, pitch := 1, volume := 1 }]
            | none => e.spoken) ∧
    (utteranceRate s.settings.speechRate = none ↔
      340282356779733661637539395458142568448 ≤ |s.settings.speechRate|) := by
  refine ⟨?_, utteranceRate_eq_none_iff _⟩
  unfold speakSelectedText
  dsimp only
  by_cases h : trim s.document.selection = []
  · simp [h]
  · have hne : (trim s.document.selection).isEmpty = false := by
      cases ht : trim s.document.selection with
      | nil => exact absurd ht h
      | cons c cs => rfl
    simp only [hne, Bool.not_false, if_true, h, if_false]
    rw [speakText_spoken_map _ s h]
    cases hr : utteranceRate s.settings.speechRate with
    | none => simp [utterancesFor, hr]
    | some rate => simp [utterancesFor, hr]

/-! ## C8: theme classes -/

/-- The theme classes present on the body, in the order and number in which
the class list holds them. -/
def presentThemeClasses (s : State) : List String :=
  s.document.body.classList.filter (fun c => themeClasses.contains c)

/-- The page agent receives one `changeTheme` message for each theme of the
list, in order. -/
def receiveThemes (themes : List String) (s : State) : State :=
  themes.foldl (fun st theme => onMessage (changeThemeRequest theme) st) s

theorem onMessage_changeTheme (theme : String) (s : State) :
    onMessage (changeThemeRequest theme) s
      = applyTheme { s with settings := { s.settings with theme := theme } } := by
  simp [onMessage, changeThemeRequest]

theorem filter_classListRemove_themeClasses (classList : List String) :
    (classListRemove themeClasses classList).filter (fun c => themeClasses.contains c) = [] := by
  unfold classListRemove
  rw [List.filter_filter, List.filter_eq_nil_iff]
  intro c _
  simp

theorem filter_classListAdd_themeClass (token : String) (classList : List String)
    (h : themeClasses.contains token = true) :
    (classListAdd token (classListRemove themeClasses classList)).filter
      (fun c => themeClasses.contains c) = [token] := by
  have hm : token ∈ themeClasses := by simpa using h
  have hnot : (classListRemove themeClasses classList).contains token = false := by
    unfold classListRemove
    cases hc : (List.filter (fun c => !themeClasses.contains c) classList).contains token with
    | false => rfl
    | true =>
      have hmem : token ∈ List.filter (fun c => !themeClasses.contains c) classList := by
        simpa using hc
      have := (List.mem_filter.mp hmem).2
      simp [hm] at this
  unfold classListAdd
  rw [hnot]
  simp only [Bool.false_eq_true, if_false, List.filter_append,
    filter_classListRemove_themeClasses, List.nil_append]
  simp [List.filter, hm]

/-- The theme classes on the body after `applyTheme`. -/
theorem presentThemeClasses_applyTheme (s : State) :
    presentThemeClasses (applyTheme s) =
      if s.settings.theme = "high-contrast" then ["accessible-high-contrast"]
      else if s.settings.theme = "dark" then ["accessible-dark"]
      else if s.settings.theme = "yellow-black" then ["accessible-yellow-black"]
      else [] := by
  unfold presentThemeClasses applyTheme
  dsimp only
  split
  · exact filter_classListAdd_themeClass _ _ (by decide)
  · split
    · exact filter_classListAdd_themeClass _ _ (by decide)
    · split
      · exact filter_classListAdd_themeClass _ _ (by decide)
      · exact filter_classListRemove_themeClasses _

theorem receiveThemes_append_last (themes : List String) (theme : String) (s : State) :
    receiveThemes (themes ++ [theme]) s
      = applyTheme { receiveThemes themes s with
          settings := { (receiveThemes themes s).settings with theme := theme } } := by
  unfold receiveThemes
  rw [List.foldl_append]
  exact onMessage_changeTheme theme _

/-- C8: for every page state (so for every initial class list of the body) and
every sequence of `changeTheme` messages, if the last theme is
`high-contrast`, `dark` or `yellow-black` then afterwards the theme classes
on the body are exactly the one class `accessible-` followed by that theme,
once; if the last theme is `normal`, no theme class is on the body. -/
theorem changeTheme_sequence_theme_classes (s : State) (themes : List String) :
    presentThemeClasses (receiveThemes (themes ++ ["high-contrast"]) s)
      = ["accessible-high-contrast"] ∧
    presentThemeClasses (receiveThemes (themes ++ ["dark"]) s) = ["accessible-dark"] ∧
    presentThemeClasses (receiveThemes (themes ++ ["yellow-black"]) s)
      = ["accessible-yellow-black"] ∧
    presentThemeClasses (receiveThemes (themes ++ ["normal"]) s) = [] := by
  refine ⟨?_, ?_, ?_, ?_⟩ <;>
    rw [receiveThemes_append_last, presentThemeClasses_applyTheme] <;> simp

/-! ## C9, C10: voice input -/

theorem set_get?_self (l : List Element) (j : Nat) (el el' : Element)
    (h : l.get? j = some el) : (l.set j el').get? j = some el' := by
  induction l generalizing j with
  | nil => simp at h
  | cons a rest ih =>
    cases j with
    | zero => simp
    | succ k => simpa using ih k (by simpa using h)

theorem setElement_element? (d : Document) (i : Nat) (el el' : Element)
    (h : d.element? i = some el) : (d.setElement i el').element? i = some el' := by
  cases i with
  | zero => simp [Document.setElement, Document.element?, Document.all]
  | succ j =>
    have hj : d.elements.get? j = some el := by
      simpa [Document.element?, Document.all] using h
    simpa [Document.setElement, Document.element?, Document.all]
      using set_get?_self d.elements j el el' hj

/-- The blank page with a focused text input holding `hello world`, the
letters `lo wo` (offsets 3 to 8) selected. -/
def inputPage : State :=
  { blankState with
    document :=
      { blankState.document with
        elements :=
          [{ blankElement "INPUT" with
              value := utf16 "hello world", selectionStart := some 3, selectionEnd := some 8 }]
        activeElement := 1 } }

/-- The string passes the `value` setter of a text field unchanged: it holds
no CR, and for a single-line `input` no LF either. No string is known to pass
the setter of another kind of element. -/
def LineBreakFree : ValueKind → JSString → Prop
  | .textarea, t => ∀ c ∈ t, c ≠ 13
  | .singleLine, t => ∀ c ∈ t, c ≠ 10 ∧ c ≠ 13
  | .other _, _ => False

/-- The blank page with a focused text input holding `abcd`, the caret at the
end. -/
def caretAtEndPage : State :=
  { blankState with
    document :=
      { blankState.document with
        elements :=
          [{ blankElement "INPUT" with
              value := utf16 "abcd", selectionStart := some 4, selectionEnd := some 4 }]
        activeElement := 1 } }

theorem stripLineBreaks_eq_self (t : JSString) (h : ∀ c ∈ t, c ≠ 10 ∧ c ≠ 13) :
    stripLineBreaks t = t := by
  unfold stripLineBreaks
  rw [List.filter_eq_self]
  intro c hc
  have := h c hc
  simp [this.1, this.2]

theorem normalizeLineBreaks_eq_self (t : JSString) (h : ∀ c ∈ t, c ≠ 13) :
    normalizeLineBreaks t = t := by
  unfold normalizeLineBreaks
  induction t with
  | nil => rfl
  | cons c rest ih =>
    have hc : c ≠ 13 := h c (List.mem_cons_self c rest)
    have hrest : ∀ x ∈ rest, x ≠ 13 := fun x hx => h x (List.mem_cons_of_mem c hx)
    simp [normalizeLineBreaksAux, hc, ih hrest]

/-- A string without the line breaks the field changes passes its setter
unchanged. -/
theorem sanitize_eq_self (kind : ValueKind) (t : JSString) (h : LineBreakFree kind t) :
    kind.sanitize t = t := by
  cases kind with
  | textarea => exact normalizeLineBreaks_eq_self t h
  | singleLine => exact stripLineBreaks_eq_self t h
  | other f => exact absurd h (by simp [LineBreakFree])

theorem lineBreakFree_splice (kind : ValueKind) (v t : JSString) (a e : Nat)
    (hv : LineBreakFree kind v) (ht : LineBreakFree kind t) :
    LineBreakFree kind (v.take a ++ t ++ v.drop e) := by
  cases kind with
  | textarea =>
    intro c hc
    rcases List.mem_append.mp hc with h | h
    · rcases List.mem_append.mp h with h | h
      · exact hv c (List.mem_of_mem_take h)
      · exact ht c h
    · exact hv c (List.mem_of_mem_drop h)
  | singleLine =>
    intro c hc
    rcases List.mem_append.mp hc with h | h
    · rcases List.mem_append.mp h with h | h
      · exact hv c (List.mem_of_mem_take h)
      · exact ht c h
    · exact hv c (List.mem_of_mem_drop h)
  | other f => exact absurd hv (by simp [LineBreakFree])

/-- On a content-editable element the handler inserts nothing: the call of
the undefined `document.exceecommand` throws, the document stays as it is and
the notification is `Error inserting text`. -/
theorem onresult_contentEditable (s : State) (i : Nat) (el : Element) (t : JSString)
    (hel : s.document.element? i = some el) (hedit : el.isContentEditable = true) :
    (onresult i t s).document.body = s.document.body ∧
    (onresult i t s).document.elements = s.document.elements ∧
    (onresult i t s).notifications = s.notifications ++
      [{ message := utf16 "Error inserting text", type := "error" }] := by
  unfold onresult
  simp only [hel, hedit, if_true]
  exact ⟨rfl, rfl, rfl⟩

/-- C9, as stated, fails: on a text input holding `abcd` with the caret at
offset 4, the transcript `x`, LF, `y` leaves the value `abcdxy` and the caret
at offset 6, not the value `abcdx`, LF, `y` and the caret at offset 7: the
`value` setter of a single-line input removes the line break and the
selection setters clamp to the length of the value. -/
theorem onresult_line_break_counterexample :
    ((onresult 1 [120, 10, 121] caretAtEndPage).document.element? 1).map
        (fun el => (el.value, el.selectionStart, el.selectionEnd))
      = some (utf16 "abcdxy", some 6, some 6) ∧
    utf16 "abcdxy" ≠ (utf16 "abcd").take 4 ++ [120, 10, 121] ++ (utf16 "abcd").drop 4 ∧
    (6 : Nat) ≠ 4 + ([120, 10, 121] : JSString).length := by
  decide

/-- C9, amended: for every text field that is not content-editable (a
`textarea`, or an `input` of type `text`, `search`, `tel` or `password`) with
value `v` and selection bounds `a ≤ e ≤ |v|`, and every transcript `t` that
holds no CR and, for a single-line `input`, no LF (as `v` itself does not),
the result handler installed for the element sets its value to
`v[0..a) ++ t ++ v[e..)` and both `selectionStart` and `selectionEnd` to
`a + |t|`; the `a` code units before the selection and the code units from
the end of the selection on are the ones of `v`. -/
theorem onresult_splices_transcript (s : State) (i : Nat) (el : Element) (v t : JSString)
    (a e : Nat) (hel : s.document.element? i = some el) (hplain : el.isContentEditable = false)
    (hv : el.value = v) (ha : el.selectionStart = some a) (he : el.selectionEnd = some e)
    (hae : a ≤ e) (hev : e ≤ v.length)
    (hvalue : LineBreakFree el.valueKind v) (ht : LineBreakFree el.valueKind t) :
    ∃ el', (onresult i t s).document.element? i = some el' ∧
      el'.value = v.take a ++ t ++ v.drop e ∧
      el'.selectionStart = some (a + t.length) ∧
      el'.selectionEnd = some (a + t.length) ∧
      el'.value.take a = v.take a ∧
      el'.value.drop (a + t.length) = v.drop e := by
  have hlen : (v.take a).length = a := by rw [List.length_take]; omega
  have hsan : el.valueKind.sanitize (v.take a ++ t ++ v.drop e) = v.take a ++ t ++ v.drop e :=
    sanitize_eq_self _ _ (lineBreakFree_splice el.valueKind v t a e hvalue ht)
  have hmin : min (a + t.length) (v.take a ++ t ++ v.drop e).length = a + t.length := by
    rw [List.length_append, List.length_append, hlen]
    omega
  have hset : (el.setValue (v.take a ++ t ++ v.drop e)).setSelection (a + t.length)
      = { el with
          value := v.take a ++ t ++ v.drop e
          selectionStart := some (a + t.length)
          selectionEnd := some (a + t.length) } := by
    simp only [Element.setValue, Element.setSelection, hsan, hmin]
  refine ⟨{ el with
    value := v.take a ++ t ++ v.drop e
    selectionStart := some (a + t.length)
    selectionEnd := some (a + t.length) }, ?_, rfl, rfl, rfl, ?_, ?_⟩
  · unfold onresult
    simp only [hel, hplain, Bool.false_eq_true, if_false, ha, he, hv, Option.getD_some, hset]
    exact setElement_element? s.document i el _ hel
  · show (v.take a ++ t ++ v.drop e).take a = v.take a
    rw [List.append_assoc, List.take_append_eq_append_take, hlen]
    simp
  · show (v.take a ++ t ++ v.drop e).drop (a + t.length) = v.drop e
    have h2 : (v.take a ++ t).length = a + t.length := by rw [List.length_append, hlen]
    rw [← h2, List.drop_left]

/-- C9, amended, on the input holding `hello world` with `lo wo` selected:
the transcript `p` gives `helprld` and the caret at offset 4. -/
theorem onresult_splices_transcript_witness :
    inputPage.document.element? 1 = some
        { blankElement "INPUT" with
          value := utf16 "hello world", selectionStart := some 3, selectionEnd := some 8 } ∧
    (3 : Nat) ≤ 8 ∧ 8 ≤ (utf16 "hello world").length ∧
    LineBreakFree .singleLine (utf16 "hello world") ∧ LineBreakFree .singleLine (utf16 "p") ∧
    ∃ el', (onresult 1 (utf16 "p") inputPage).document.element? 1 = some el' ∧
      el'.value = (utf16 "hello world").take 3 ++ utf16 "p" ++ (utf16 "hello world").drop 8 ∧
      el'.selectionStart = some (3 + (utf16 "p").length) ∧
      el'.selectionEnd = some (3 + (utf16 "p").length) ∧
      el'.value.take 3 = (utf16 "hello world").take 3 ∧
      el'.value.drop (3 + (utf16 "p").length) = (utf16 "hello world").drop 8 :=
  have hvalue : LineBreakFree .singleLine (utf16 "hello world") := by
    show ∀ c ∈ utf16 "hello world", c ≠ 10 ∧ c ≠ 13
    decide
  have ht : LineBreakFree .singleLine (utf16 "p") := by
    show ∀ c ∈ utf16 "p", c ≠ 10 ∧ c ≠ 13
    decide
  ⟨rfl, by decide, by decide, hvalue, ht,
    onresult_splices_transcript inputPage 1
      { blankElement "INPUT" with
        value := utf16 "hello world", selectionStart := some 3, selectionEnd := some 8 }
      (utf16 "hello world") (utf16 "p") 3 8 rfl rfl rfl rfl rfl (by decide) (by decide)
      hvalue ht⟩

/-- C10: for every page state in which the focused element, if there is one,
is not an `INPUT`, not a `TEXTAREA` and not content-editable,
`startVoiceInput` leaves the recognition engine as it is (no call of `start`,
no session begun) and shows exactly one notification. -/
theorem startVoiceInput_without_text_field (s : State)
    (h : ∀ el, s.document.element? s.document.activeElement = some el →
      el.tagName ≠ "INPUT" ∧ el.tagName ≠ "TEXTAREA" ∧ el.isContentEditable = false) :
    (startVoiceInput s).recognition = s.recognition ∧
    ∃ n, (startVoiceInput s).notifications = s.notifications ++ [n] ∧
      (startVoiceInput s).document.notification = some n := by
  unfold startVoiceInput
  cases hr : s.recognition with
  | none => exact ⟨by simp [hr], _, rfl, rfl⟩
  | some recognition =>
    cases hel : s.document.element? s.document.activeElement with
    | none => exact ⟨by simp [hr], _, rfl, rfl⟩
    | some activeElement =>
      obtain ⟨h1, h2, h3⟩ := h activeElement hel
      have hcond : (!(["INPUT", "TEXTAREA"].contains activeElement.tagName) &&
          !activeElement.isContentEditable) = true := by
        simp [h1, h2, h3]
      simp only [hcond, if_true]
      exact ⟨by simp [hr], _, rfl, rfl⟩

/-- C10 on the blank page, where the body has the focus: one notification,
no session. -/
theorem startVoiceInput_without_text_field_witness :
    (∀ el, blankState.document.element? blankState.document.activeElement = some el →
      el.tagName ≠ "INPUT" ∧ el.tagName ≠ "TEXTAREA" ∧ el.isContentEditable = false) ∧
    (startVoiceInput blankState).recognition = blankState.recognition ∧
    ∃ n, (startVoiceInput blankState).notifications = blankState.notifications ++ [n] ∧
      (startVoiceInput blankState).document.notification = some n :=
  have h : ∀ el, blankState.document.element? blankState.document.activeElement = some el →
      el.tagName ≠ "INPUT" ∧ el.tagName ≠ "TEXTAREA" ∧ el.isContentEditable = false := by
    intro el hel
    have he : blankElement "BODY" = el := Option.some.inj hel
    subst he
    exact ⟨by decide, by decide, rfl⟩
  ⟨h, startVoiceInput_without_text_field blankState h⟩

/-! ## C11: the invariant of the settings -/

/-- The four themes of the data model. -/
def themes : List String := ["normal", "high-contrast", "dark", "yellow-black"]

/-- The invariant of the data model: the font size is in `[80, 200]` and a
multiple of 10, and the theme is one of the four themes. -/
def SettingsInvariant (settings : Settings) : Prop :=
  80 ≤ settings.fontSize ∧ settings.fontSize ≤ 200 ∧ settings.fontSize % 10 = 0 ∧
  settings.theme ∈ themes

/-- Every font size and theme the record holds satisfies the invariant. -/
def StoredInvariant (r : StoredSettings) : Prop :=
  (∀ f, r.fontSize = some f → 80 ≤ f ∧ f ≤ 200 ∧ f % 10 = 0) ∧
  (∀ t, r.theme = some t → t ∈ themes)

/-- What the page agent reacts to: a message, or the callback of the store
read of lines 28-31 with the record the store holds at that moment (the
popup and the background worker write the store too). -/
inductive Event where
  | message (request : Request)
  | storeLoad (result : StoredSettings)

/-- The reaction of the page agent to one event. -/
def step (event : Event) (s : State) : State :=
  match event with
  | .message request => onMessage request s
  | .storeLoad result => loadAndApply { s with store := result }

/-- The reaction of the page agent to a sequence of events. -/
def run (events : List Event) (s : State) : State :=
  events.foldl (fun st event => step event st) s

/-- The event carries no font size and no theme outside the data model: a
`changeTheme` message names one of the four themes, and the record of an
`applySettings` message or of a store load satisfies `StoredInvariant`. -/
def Event.InModel : Event → Prop
  | .message request =>
    (request.action = "changeTheme" → request.theme ∈ themes) ∧
    (request.action = "applySettings" → ∀ r, request.settings = some r → StoredInvariant r)
  | .storeLoad result => StoredInvariant result

/-- An `applySettings` message. -/
def applySettingsRequest (settings : StoredSettings) : Request :=
  { action := "applySettings", enabled := false, rate := 1, change := "", theme := "",
    settings := some settings }

/-- A `changeFontSize` message. -/
def changeFontSizeRequest (change : String) : Request :=
  { action := "changeFontSize", enabled := false, rate := 1, change := change, theme := "",
    settings := none }

@[simp] theorem speakText_settings (text : JSString) (s : State) :
    (speakText text s).settings = s.settings := by
  unfold speakText
  dsimp only
  split
  · exact stopSpeech_settings s
  · split
    · simp
    · split
      · simp
      · exact stopSpeech_settings s

@[simp] theorem speakSelectedText_settings (s : State) :
    (speakSelectedText s).settings = s.settings := by
  unfold speakSelectedText
  dsimp only
  split <;> simp

@[simp] theorem readEntirePage_settings (s : State) :
    (readEntirePage s).settings = s.settings := by
  unfold readEntirePage
  dsimp only
  split
  · simp
  · split <;> simp

@[simp] theorem startVoiceInput_settings (s : State) :
    (startVoiceInput s).settings = s.settings := by
  unfold startVoiceInput
  split
  · rfl
  · split
    · rfl
    · split
      · rfl
      · dsimp only
        split <;> rfl

theorem changeFontSize_theme (change : String) (s : State) :
    (changeFontSize change s).settings.theme = s.settings.theme := by
  unfold changeFontSize
  by_cases h1 : change = "increase"
  · simp [h1]
  · by_cases h2 : change = "decrease"
    · simp [h2]
    · by_cases h3 : change = "reset"
      · simp [h3]
      · simp [h1, h2, h3]

theorem defaultSettings_invariant : SettingsInvariant defaultSettings := by
  refine ⟨by decide, by decide, by decide, by decide⟩

/-- Spreading a record that satisfies `StoredInvariant` keeps the invariant. -/
theorem spread_invariant (settings : Settings) (r : StoredSettings)
    (h : SettingsInvariant settings) (hr : StoredInvariant r) :
    SettingsInvariant (spread settings r) := by
  obtain ⟨h1, h2, h3, h4⟩ := h
  obtain ⟨hf, ht⟩ := hr
  have hfont : 80 ≤ (spread settings r).fontSize ∧ (spread settings r).fontSize ≤ 200 ∧
      (spread settings r).fontSize % 10 = 0 := by
    show 80 ≤ r.fontSize.getD settings.fontSize ∧ r.fontSize.getD settings.fontSize ≤ 200 ∧
      r.fontSize.getD settings.fontSize % 10 = 0
    cases hv : r.fontSize with
    | none => exact ⟨h1, h2, h3⟩
    | some f => exact hf f hv
  have htheme : (spread settings r).theme ∈ themes := by
    show r.theme.getD settings.theme ∈ themes
    cases hv : r.theme with
    | none => exact h4
    | some t => exact ht t hv
  exact ⟨hfont.1, hfont.2.1, hfont.2.2, htheme⟩

theorem changeFontSize_invariant (change : String) (s : State)
    (h : SettingsInvariant s.settings) :
    SettingsInvariant (changeFontSize change s).settings := by
  obtain ⟨h1, h2, h3, h4⟩ := h
  refine ⟨?_, ?_, ?_, by rw [changeFontSize_theme]; exact h4⟩ <;>
    rw [changeFontSize_fontSize_exact change s (by omega) (by omega)] <;> split_ifs <;> omega

/-- A message of the model keeps the invariant. -/
theorem onMessage_invariant (request : Request) (s : State)
    (hreq : (Event.message request).InModel) (h : SettingsInvariant s.settings) :
    SettingsInvariant (onMessage request s).settings := by
  obtain ⟨htheme, happly⟩ := hreq
  unfold onMessage
  by_cases a1 : request.action = "toggleTTS"
  · rw [if_pos a1]; exact h
  rw [if_neg a1]
  by_cases a2 : request.action = "toggleVoice"
  · rw [if_pos a2]; exact h
  rw [if_neg a2]
  by_cases a3 : request.action = "toggleFocus"
  · rw [if_pos a3, applyFocusMode_settings]; exact h
  rw [if_neg a3]
  by_cases a4 : request.action = "toggleKeyboard"
  · rw [if_pos a4, applyKeyboardNavigation_settings]; exact h
  rw [if_neg a4]
  by_cases a5 : request.action = "setSpeechRate"
  · rw [if_pos a5]; exact h
  rw [if_neg a5]
  by_cases a6 : request.action = "changeFontSize"
  · rw [if_pos a6]; exact changeFontSize_invariant request.change s h
  rw [if_neg a6]
  by_cases a7 : request.action = "changeTheme"
  · rw [if_pos a7, applyTheme_settings]; exact ⟨h.1, h.2.1, h.2.2.1, htheme a7⟩
  rw [if_neg a7]
  by_cases a8 : request.action = "speakSelection"
  · rw [if_pos a8, speakSelectedText_settings]; exact h
  rw [if_neg a8]
  by_cases a9 : request.action = "stopSpeech"
  · rw [if_pos a9, stopSpeech_settings]; exact h
  rw [if_neg a9]
  by_cases a10 : request.action = "startVoiceInput"
  · rw [if_pos a10, startVoiceInput_settings]; exact h
  rw [if_neg a10]
  by_cases a11 : request.action = "readPage"
  · rw [if_pos a11, readEntirePage_settings]; exact h
  rw [if_neg a11]
  by_cases a12 : request.action = "resetAll"
  · rw [if_pos a12, resetAllSettings_settings]; exact defaultSettings_invariant
  rw [if_neg a12]
  by_cases a13 : request.action = "applySettings"
  · rw [if_pos a13]
    cases hs : request.settings with
    | none => exact h
    | some r =>
      show SettingsInvariant (applyAllSettings _).settings
      rw [applyAllSettings_settings]
      exact spread_invariant s.settings r h (happly a13 r hs)
  rw [if_neg a13]
  exact h

/-- An event of the model keeps the invariant. -/
theorem step_invariant (event : Event) (s : State) (hevent : event.InModel)
    (h : SettingsInvariant s.settings) : SettingsInvariant (step event s).settings := by
  cases event with
  | message request => exact onMessage_invariant request s hevent h
  | storeLoad result =>
    show SettingsInvariant (loadAndApply _).settings
    unfold loadAndApply
    rw [applyAllSettings_settings]
    exact spread_invariant s.settings result h hevent

/-- C11, as stated, fails: from the blank page with the default settings, a
`changeTheme` message with the theme `sepia` leaves a theme outside the four
themes; an `applySettings` message with `fontSize: 95`, and a store load with
`fontSize: 1000`, leave font sizes outside the invariant. -/
theorem settings_invariant_counterexample :
    blankState.settings = defaultSettings ∧
    ¬ SettingsInvariant (run [.message (changeThemeRequest "sepia")] blankState).settings ∧
    (run [.message (changeThemeRequest "sepia")] blankState).settings.theme = "sepia" ∧
    ¬ SettingsInvariant
      (run [.message (applySettingsRequest { emptyStore with fontSize := some 95 })]
        blankState).settings ∧
    ¬ SettingsInvariant
      (run [.storeLoad { emptyStore with fontSize := some 1000 }] blankState).settings := by
  refine ⟨rfl, ?_, by decide, ?_, ?_⟩
  · intro h
    exact absurd h.2.2.2 (by decide)
  · intro h
    exact absurd h.2.2.1 (by decide)
  · intro h
    exact absurd h.2.1 (by decide)

/-- C11, amended: the invariant of the settings (font size in `[80, 200]` and
a multiple of 10, theme one of the four themes) holds in every state reached
from the default settings by a sequence of messages and store loads in which
every `changeTheme` message names one of the four themes and every font size
and theme held by the record of an `applySettings` message or of a store load
satisfies the invariant; the other actions and payloads are arbitrary. -/
theorem settings_invariant_reachable (s : State) (events : List Event)
    (hinit : s.settings = defaultSettings) (hevents : ∀ event ∈ events, event.InModel) :
    SettingsInvariant (run events s).settings := by
  have h0 : SettingsInvariant s.settings := by rw [hinit]; exact defaultSettings_invariant
  clear hinit
  unfold run
  induction events generalizing s with
  | nil => exact h0
  | cons event rest ih =>
    exact ih (step event s) (fun e he => hevents e (List.mem_cons_of_mem event he))
      (step_invariant event s (hevents event (List.mem_cons_self event rest)) h0)

/-- A run of the model: a font-size increase, the dark theme, a store load
with `fontSize: 150`, an `applySettings` message with the yellow-black theme,
and a message with an unknown action. -/
def sampleEvents : List Event :=
  [.message (changeFontSizeRequest "increase"),
   .message (changeThemeRequest "dark"),
   .storeLoad { emptyStore with fontSize := some 150 },
   .message (applySettingsRequest { emptyStore with theme := some "yellow-black" }),
   .message { changeThemeRequest "sepia" with action := "paint" }]

theorem sampleEvents_inModel : ∀ event ∈ sampleEvents, event.InModel := by
  intro event he
  simp only [sampleEvents, List.mem_cons, List.mem_singleton, List.not_mem_nil, or_false] at he
  rcases he with rfl | rfl | rfl | rfl | rfl
  · exact ⟨fun h => absurd h (by decide), fun h => absurd h (by decide)⟩
  · exact ⟨fun _ => by decide, fun h => absurd h (by decide)⟩
  · refine ⟨fun f hf => ?_, fun t ht => ?_⟩
    · obtain rfl : (150 : Int) = f := Option.some.inj hf
      exact ⟨by decide, by decide, by decide⟩
    · exact absurd ht (by simp [emptyStore])
  · refine ⟨fun h => absurd h (by decide), fun _ r hr => ?_⟩
    obtain rfl : ({ emptyStore with theme := some "yellow-black" } : StoredSettings) = r :=
      Option.some.inj hr
    refine ⟨fun f hf => absurd hf (by simp [emptyStore]), fun t ht => ?_⟩
    obtain rfl : "yellow-black" = t := Option.some.inj ht
    decide
  · exact ⟨fun h => absurd h (by decide), fun h => absurd h (by decide)⟩

/-- C11, amended, on the sample run from the blank page. -/
theorem settings_invariant_reachable_witness :
    blankState.settings = defaultSettings ∧
    (∀ event ∈ sampleEvents, event.InModel) ∧
    SettingsInvariant (run sampleEvents blankState).settings ∧
    (run sampleEvents blankState).settings.fontSize = 150 ∧
    (run sampleEvents blankState).settings.theme = "yellow-black" :=
  ⟨rfl, sampleEvents_inModel,
    settings_invariant_reachable blankState sampleEvents rfl sampleEvents_inModel,
    by decide, by decide⟩

/-! ## C12: switching keyboard navigation off -/

/-- A `toggleKeyboard` message. -/
def toggleKeyboardRequest (enabled : Bool) : Request :=
  { action := "toggleKeyboard", enabled := enabled, rate := 1, change := "", theme := "",
    settings := none }

/-- A page with a button, a link whose `tabindex` is `-1`, and a `div`. -/
def linksPage : State :=
  { blankState with
    document :=
      { blankState.document with
        elements :=
          [blankElement "BUTTON",
           { blankElement "A" with attributes := [("href", "#top"), ("tabindex", "-1")] },
           blankElement "DIV"] } }

theorem find?_map_replace (l : List (String × String)) (name value : String)
    (h : l.any (fun a => a.1 == name) = true) :
    (l.map (fun a => if a.1 == name then (name, value) else a)).find? (fun a => a.1 == name)
      = some (name, value) := by
  induction l with
  | nil => simp at h
  | cons a rest ih =>
    by_cases ha : (a.1 == name) = true
    · rw [List.map_cons, if_pos ha, List.find?_cons]
      have hn : ((name, value).1 == name) = true := by simp
      rw [hn]
    · have ha' : (a.1 == name) = false := by simpa using ha
      have hrest : rest.any (fun a => a.1 == name) = true := by
        simpa [List.any_cons, ha'] using h
      simp only [List.map_cons, ha', Bool.false_eq_true, if_false, List.find?_cons]
      exact ih hrest

theorem find?_append_new (l : List (String × String)) (name value : String)
    (h : l.any (fun a => a.1 == name) = false) :
    (l ++ [(name, value)]).find? (fun a => a.1 == name) = some (name, value) := by
  induction l with
  | nil => simp
  | cons a rest ih =>
    have ha : (a.1 == name) = false := by
      cases hc : (a.1 == name) with
      | false => rfl
      | true => simp [List.any_cons, hc] at h
    have hrest : rest.any (fun a => a.1 == name) = false := by
      simpa [List.any_cons, ha] using h
    simp only [List.cons_append, List.find?_cons, ha]
    exact ih hrest

/-- Reading back the attribute just set. -/
theorem getAttribute_setAttribute (el : Element) (name value : String) :
    (el.setAttribute name value).getAttribute name = some value := by
  unfold Element.setAttribute Element.getAttribute
  cases h : el.hasAttribute name with
  | true =>
    simp only [if_true]
    rw [find?_map_replace el.attributes name value h]
    rfl
  | false =>
    simp only [Bool.false_eq_true, if_false]
    rw [find?_append_new el.attributes name value h]
    rfl

/-- The loop body gives the element the `tabindex` `0` when it had none or
had `-1`. -/
theorem addTabIndex_tabindex (el : Element)
    (h : el.hasAttribute "tabindex" = false ∨ el.getAttribute "tabindex" = some "-1") :
    (addTabIndex el).getAttribute "tabindex" = some "0" := by
  unfold addTabIndex
  have hc : (!el.hasAttribute "tabindex" || el.getAttribute "tabindex" == some "-1") = true := by
    rcases h with h | h <;> simp [h]
  rw [if_pos hc]
  exact getAttribute_setAttribute el "tabindex" "0"

theorem onMessage_toggleKeyboard (enabled : Bool) (s : State) :
    onMessage (toggleKeyboardRequest enabled) s
      = applyKeyboardNavigation { s with settings := { s.settings with keyboardNav := enabled } } := by
  simp [onMessage, toggleKeyboardRequest]

/-- With keyboard navigation switched off `applyKeyboardNavigation` returns
the state it was given. -/
theorem applyKeyboardNavigation_off (s : State) (h : s.settings.keyboardNav = false) :
    applyKeyboardNavigation s = s := by
  simp [applyKeyboardNavigation, h]

/-- After `applyKeyboardNavigation` with keyboard navigation on, the element
at each index has the attributes the loop body gave it, and the body has the
class `accessible-keyboard-nav`. -/
theorem applyKeyboardNavigation_on (s : State) (h : s.settings.keyboardNav = true) :
    "accessible-keyboard-nav" ∈ (applyKeyboardNavigation s).document.body.classList ∧
    ∀ i el, s.document.element? i = some el →
      ∃ el1, (applyKeyboardNavigation s).document.element? i = some el1 ∧
        el1.attributes = (if matchesInteractive el then addTabIndex el else el).attributes := by
  unfold applyKeyboardNavigation
  rw [if_pos h]
  refine ⟨?_, ?_⟩
  · dsimp only
    unfold classListAdd
    split
    · rename_i hc
      simpa using hc
    · simp
  · intro i el hel
    cases i with
    | zero =>
      have hb : s.document.body = el := by
        simpa [Document.element?, Document.all] using hel
      subst hb
      exact ⟨_, rfl, rfl⟩
    | succ j =>
      have hj : s.document.elements.get? j = some el := by
        simpa [Document.element?, Document.all] using hel
      have hj' : s.document.elements[j]? = some el := by simpa using hj
      refine ⟨if matchesInteractive el then addTabIndex el else el, ?_, rfl⟩
      simp [Document.element?, Document.all, Document.forEachMatch, hj']

theorem getAttribute_congr (a b : Element) (name : String) (h : a.attributes = b.attributes) :
    a.getAttribute name = b.getAttribute name := by
  unfold Element.getAttribute
  rw [h]

/-- The two messages in a row: the second only clears the setting. -/
theorem toggleKeyboard_on_off (s : State) :
    onMessage (toggleKeyboardRequest false) (onMessage (toggleKeyboardRequest true) s)
      = { applyKeyboardNavigation { s with settings := { s.settings with keyboardNav := true } }
          with settings := { s.settings with keyboardNav := false } } := by
  rw [onMessage_toggleKeyboard true s, onMessage_toggleKeyboard false]
  rw [applyKeyboardNavigation_off _ rfl]
  simp

/-- C12: for every state, `applyKeyboardNavigation` with
`settings.keyboardNav = false` returns the state unchanged, so it changes
nothing in the document. Consequently, after a `toggleKeyboard` message with
`enabled = true` followed by one with `enabled = false`,
`settings.keyboardNav` is `false`, the document is the one the first message
left, the body still has the class `accessible-keyboard-nav`, and every
interactive element that had no `tabindex` or the `tabindex` `-1` still has
the `tabindex` `0` the first message gave it. -/
theorem toggleKeyboard_off_keeps_dom (s : State) :
    applyKeyboardNavigation { s with settings := { s.settings with keyboardNav := false } }
      = { s with settings := { s.settings with keyboardNav := false } } ∧
    (onMessage (toggleKeyboardRequest false)
      (onMessage (toggleKeyboardRequest true) s)).settings.keyboardNav = false ∧
    (onMessage (toggleKeyboardRequest false) (onMessage (toggleKeyboardRequest true) s)).document
      = (onMessage (toggleKeyboardRequest true) s).document ∧
    "accessible-keyboard-nav" ∈ (onMessage (toggleKeyboardRequest false)
      (onMessage (toggleKeyboardRequest true) s)).document.body.classList ∧
    ∀ i el, s.document.element? i = some el → matchesInteractive el = true →
      (el.hasAttribute "tabindex" = false ∨ el.getAttribute "tabindex" = some "-1") →
      ∃ el2, (onMessage (toggleKeyboardRequest false)
          (onMessage (toggleKeyboardRequest true) s)).document.element? i = some el2 ∧
        el2.getAttribute "tabindex" = some "0" := by
  obtain ⟨hclass, hattr⟩ := applyKeyboardNavigation_on
    { s with settings := { s.settings with keyboardNav := true } } rfl
  refine ⟨applyKeyboardNavigation_off _ rfl, ?_, ?_, ?_, ?_⟩
  · rw [toggleKeyboard_on_off]
  · rw [toggleKeyboard_on_off, onMessage_toggleKeyboard true s]
  · rw [toggleKeyboard_on_off]
    exact hclass
  · intro i el hel hmatch htab
    obtain ⟨el1, hel1, hattr1⟩ := hattr i el hel
    rw [toggleKeyboard_on_off]
    refine ⟨el1, hel1, ?_⟩
    rw [if_pos hmatch] at hattr1
    rw [getAttribute_congr el1 (addTabIndex el) "tabindex" hattr1]
    exact addTabIndex_tabindex el htab

/-- C12 on the page with a button, a link of `tabindex` `-1` and a `div`:
after switching keyboard navigation on and off again the setting is off, the
body has the class, the button and the link have the `tabindex` `0` and the
`div` has none. -/
theorem toggleKeyboard_off_keeps_dom_witness :
    (onMessage (toggleKeyboardRequest false)
      (onMessage (toggleKeyboardRequest true) linksPage)).settings.keyboardNav = false ∧
    "accessible-keyboard-nav" ∈ (onMessage (toggleKeyboardRequest false)
      (onMessage (toggleKeyboardRequest true) linksPage)).document.body.classList ∧
    ((onMessage (toggleKeyboardRequest false)
      (onMessage (toggleKeyboardRequest true) linksPage)).document.all.map
        (fun el => el.getAttribute "tabindex")) = [none, some "0", some "0", none] ∧
    (linksPage.document.all.map (fun el => el.getAttribute "tabindex"))
      = [none, none, some "-1", none] :=
  ⟨(toggleKeyboard_off_keeps_dom linksPage).2.1, (toggleKeyboard_off_keeps_dom linksPage).2.2.2.1,
    by decide, by decide⟩

end ContentScript
